import Mathlib

/-!
Verification of the centinela log-observation daemon against its
natural-language specification.

The Rust source is shallowly embedded: chrono `DateTime<Utc>` values are
modelled as integer nanoseconds since the Unix epoch (chrono stores UTC
instants at nanosecond precision on a leap-second-free timeline), Rust
`Vec`/`VecDeque` as `List`, `HashMap` as association lists (`List (k × v)`),
fallible operations (`panic!`, `expect`, out-of-range `Vec::drain`,
out-of-range `Utc.isoywd`) as `Option`, and spawned tasks as explicit
state-passing functions.  Calendar computations reproduce the proleptic
Gregorian calendar used by chrono `NaiveDate` / `Datelike` / `IsoWeek`.
-/

namespace Centinela

/-- Nanoseconds per second. -/
def nsPerSec : Int := 1000000000

/-- Nanoseconds per day. -/
def nsPerDay : Int := 86400 * nsPerSec

/-- Whole seconds since the epoch of an instant (floor, as in chrono `timestamp()`). -/
def secsOf (t : Int) : Int := t / nsPerSec

/-- Days since 1970-01-01 of the civil date containing an instant. -/
def dayOf (t : Int) : Int := secsOf t / 86400

/-- Seconds elapsed since midnight on the instant's civil day. -/
def secOfDay (t : Int) : Int := secsOf t % 86400

/-- The `hour()` component of an instant (chrono `Timelike`). -/
def hourOf (t : Int) : Int := secOfDay t / 3600

/-- The `minute()` component of an instant (chrono `Timelike`). -/
def minuteOf (t : Int) : Int := (secOfDay t % 3600) / 60

/-- The `second()` component of an instant (chrono `Timelike`). -/
def secondOf (t : Int) : Int := secOfDay t % 60

/-- Proleptic Gregorian leap-year rule (chrono `NaiveDate::leap_year`). -/
def isLeap (y : Int) : Bool :=
  (y % 4 == 0 && y % 100 != 0) || y % 400 == 0

/-- Days from 0000-01-01 to `y`-01-01 in the proleptic Gregorian calendar:
365 per year plus one for every leap year strictly before `y`. -/
def daysToYear (y : Int) : Int :=
  365 * y + (y + 3) / 4 - (y + 99) / 100 + (y + 399) / 400

/-- Days from 0000-01-01 to 1970-01-01. -/
def epochShift : Int := 719528

/-- Days in the months strictly before month `m` (1-12) of a year whose
leap flag is `leap`. -/
def monthOffset (leap : Bool) (m : Int) : Int :=
  let b : Int := if leap then 1 else 0
  if m = 1 then 0
  else if m = 2 then 31
  else if m = 3 then 59 + b
  else if m = 4 then 90 + b
  else if m = 5 then 120 + b
  else if m = 6 then 151 + b
  else if m = 7 then 181 + b
  else if m = 8 then 212 + b
  else if m = 9 then 243 + b
  else if m = 10 then 273 + b
  else if m = 11 then 304 + b
  else 334 + b

/-- Days since 1970-01-01 of the civil date `y`-`m`-`d` (proleptic Gregorian,
the date arithmetic underlying chrono `NaiveDate`). -/
def daysFromCivil (y m d : Int) : Int :=
  daysToYear y - epochShift + monthOffset (isLeap y) m + d - 1

/-- The calendar year containing epoch day `z` (chrono `Datelike::year`):
a linear first guess corrected against the exact year-start table. -/
def yearOf (z : Int) : Int :=
  if z + epochShift < daysToYear (400 * (z + epochShift) / 146097) then
    400 * (z + epochShift) / 146097 - 1
  else if z + epochShift < daysToYear (400 * (z + epochShift) / 146097 + 1) then
    400 * (z + epochShift) / 146097
  else if z + epochShift < daysToYear (400 * (z + epochShift) / 146097 + 2) then
    400 * (z + epochShift) / 146097 + 1
  else 400 * (z + epochShift) / 146097 + 2

/-- Zero-based ordinal of epoch day `z` within its calendar year. -/
def doy0 (z : Int) : Int := z - daysFromCivil (yearOf z) 1 1

/-- Month and day-of-month from a zero-based ordinal and a leap flag. -/
def monthdayOfDoy (leap : Bool) (doy : Int) : Int × Int :=
  let b : Int := if leap then 1 else 0
  if doy < 31 then (1, doy + 1)
  else if doy < 59 + b then (2, doy - 31 + 1)
  else if doy < 90 + b then (3, doy - (59 + b) + 1)
  else if doy < 120 + b then (4, doy - (90 + b) + 1)
  else if doy < 151 + b then (5, doy - (120 + b) + 1)
  else if doy < 181 + b then (6, doy - (151 + b) + 1)
  else if doy < 212 + b then (7, doy - (181 + b) + 1)
  else if doy < 243 + b then (8, doy - (212 + b) + 1)
  else if doy < 273 + b then (9, doy - (243 + b) + 1)
  else if doy < 304 + b then (10, doy - (273 + b) + 1)
  else if doy < 334 + b then (11, doy - (304 + b) + 1)
  else (12, doy - (334 + b) + 1)

/-- The `month()` component of epoch day `z` (chrono `Datelike::month`). -/
def monthOf (z : Int) : Int := (monthdayOfDoy (isLeap (yearOf z)) (doy0 z)).1

/-- The `day()` component of epoch day `z` (chrono `Datelike::day`). -/
def domOf (z : Int) : Int := (monthdayOfDoy (isLeap (yearOf z)) (doy0 z)).2

/-- ISO weekday of epoch day `z`, 1 = Monday .. 7 = Sunday
(1970-01-01 was a Thursday). -/
def isoWeekday (z : Int) : Int := (z + 3) % 7 + 1

/-- Number of ISO weeks in ISO year `y`: 53 iff January 1 or December 31
of `y` falls on a Thursday, else 52. -/
def weeksInIsoYear (y : Int) : Int :=
  if isoWeekday (daysFromCivil y 1 1) = 4 ∨ isoWeekday (daysFromCivil y 12 31) = 4
  then 53 else 52

/-- ISO 8601 week date of epoch day `z`: `(iso year, iso week number)`
(chrono `Datelike::iso_week`). -/
def isoWeekPair (z : Int) : Int × Int :=
  let y := yearOf z
  let ord := z - daysFromCivil y 1 1 + 1
  let wd := isoWeekday z
  let w := (ord - wd + 10) / 7
  if w < 1 then (y - 1, weeksInIsoYear (y - 1))
  else if weeksInIsoYear y < w then (y + 1, 1)
  else (y, w)

/-- Epoch day of the Monday of ISO week 1 of ISO year `y`
(the week containing January 4). -/
def mondayOfIsoWeek1 (y : Int) : Int :=
  let j4 := daysFromCivil y 1 4
  j4 - (isoWeekday j4 - 1)

/-- chrono `Utc.isoywd(y, w, Weekday::Mon)`: the Monday of ISO week `w` of
ISO year `y`, or `none` when the week number is out of range for that year
(chrono panics in that case). -/
def isoywdMonday (y w : Int) : Option Int :=
  if 1 ≤ w ∧ w ≤ weeksInIsoYear y then some (mondayOfIsoWeek1 y + 7 * (w - 1))
  else none

/-- 1 when the year is leap, 0 otherwise (as an integer). -/
def leapB (y : Int) : Int := if isLeap y then 1 else 0

/-- Epoch day of the start of the month with absolute month index `i`
(index `12 * y + (m - 1)`). -/
def monthStartD (i : Int) : Int :=
  daysFromCivil (i / 12) (i % 12 + 1) 1

/-- The weeks-map key computed by `EventCounts::increment` for an instant on
epoch day `z`: `Utc.isoywd(now.year(), now.iso_week().week(), Weekday::Mon)` —
note the calendar year is combined with the ISO week number. -/
def weekKeyDay (z : Int) : Option Int :=
  isoywdMonday (yearOf z) (isoWeekPair z).2

/-- Monday of the ISO week containing epoch day `z` (what the specification
says the weeks-map key should be). -/
def specIsoWeekMonday (z : Int) : Int := z - (isoWeekday z - 1)

/-- A single line from a log file (`data.rs::LogLine`). -/
structure LogLine where
  date : Int
  line : String
  is_event_line : Bool
deriving Repr, DecidableEq

/-- A monitor match event (`data.rs::MonitorEvent`).  File paths are modelled
as strings.  The `monitor.rs` revision also extracts a capture-group
`variant`; the store-side `MonitorEvent` in `data.rs` has no such field, so
it is not modelled. -/
structure MonitorEvent where
  lines : List LogLine
  awaiting_lines : Nat
  awaiting_lines_from : String
  notify_by : Int
deriving Repr, DecidableEq

/-- Counts of monitor match events bucketed by time granularity
(`data.rs::EventCounts`).  `HashMap<DateTime<Utc>, usize>` is modelled as an
association list with distinct keys; iteration order of the hash map is
irrelevant to every behavior modelled here. -/
structure EventCounts where
  seconds : List (Int × Nat)
  minutes : List (Int × Nat)
  hours : List (Int × Nat)
  days : List (Int × Nat)
  weeks : List (Int × Nat)
  months : List (Int × Nat)
  years : List (Int × Nat)
deriving Repr, DecidableEq

/-- `EventCounts::default()`. -/
def EventCounts.empty : EventCounts := ⟨[], [], [], [], [], [], []⟩

def KEEP_SECONDS : Int := 60 * 60
def KEEP_MINUTES : Int := 60 * 24
def KEEP_HOURS : Int := 24 * 7
def KEEP_DAYS : Int := 7 * 4
def KEEP_WEEKS : Int := 52
def KEEP_MONTHS : Int := 48
def KEEP_YEARS : Int := 10

/-- `EventCounts::trim_older`: retain entries whose key is at or after
`now - Duration::seconds(keep_seconds)`. -/
def trim_older (items : List (Int × Nat)) (now : Int) (keepSeconds : Int) :
    List (Int × Nat) :=
  items.filter (fun kv => now - keepSeconds * nsPerSec ≤ kv.1)

/-- `EventCounts::trim_all`. -/
def EventCounts.trim_all (c : EventCounts) (now : Int) : EventCounts where
  seconds := trim_older c.seconds now KEEP_SECONDS
  minutes := trim_older c.minutes now (KEEP_MINUTES * 60)
  hours := trim_older c.hours now (KEEP_HOURS * 60 * 60)
  days := trim_older c.days now (KEEP_DAYS * 60 * 60 * 24)
  weeks := trim_older c.weeks now (KEEP_WEEKS * 60 * 60 * 24 * 7)
  months := trim_older c.months now (KEEP_MONTHS * 60 * 60 * 24 * 31)
  years := trim_older c.years now (KEEP_YEARS * 60 * 60 * 24 * 365)

/-- The `match map.get_mut(&key)` / `map.insert(key, 1)` pattern used by
`EventCounts::increment` for each bucket. -/
def bump (items : List (Int × Nat)) (k : Int) : List (Int × Nat) :=
  if (items.lookup k).isSome then
    items.map (fun kv => if kv.1 == k then (kv.1, kv.2 + 1) else kv)
  else items ++ [(k, 1)]

/-- Key for the seconds bucket:
`now.date().and_hms(now.hour(), now.minute(), now.second())`. -/
def keySeconds (t : Int) : Int :=
  (dayOf t * 86400 + hourOf t * 3600 + minuteOf t * 60 + secondOf t) * nsPerSec

/-- Key for the minutes bucket: `now.date().and_hms(now.hour(), now.minute(), 0)`. -/
def keyMinutes (t : Int) : Int :=
  (dayOf t * 86400 + hourOf t * 3600 + minuteOf t * 60) * nsPerSec

/-- Key for the hours bucket: `now.date().and_hms(now.hour(), 0, 0)`. -/
def keyHours (t : Int) : Int := (dayOf t * 86400 + hourOf t * 3600) * nsPerSec

/-- Key for the days bucket: `now.date().and_hms(0, 0, 0)`. -/
def keyDays (t : Int) : Int := dayOf t * 86400 * nsPerSec

/-- Key for the weeks bucket:
`Utc.isoywd(now.year(), now.iso_week().week(), Weekday::Mon).and_hms(0,0,0)`;
`none` models the `isoywd` panic on an out-of-range week number. -/
def keyWeeks (t : Int) : Option Int :=
  (weekKeyDay (dayOf t)).map (fun d => d * nsPerDay)

/-- Key for the months bucket: `Utc.ymd(now.year(), now.month(), 1).and_hms(0,0,0)`. -/
def keyMonths (t : Int) : Int :=
  daysFromCivil (yearOf (dayOf t)) (monthOf (dayOf t)) 1 * nsPerDay

/-- Key for the years bucket: `Utc.ymd(now.year(), 1, 1).and_hms(0,0,0)`. -/
def keyYears (t : Int) : Int := daysFromCivil (yearOf (dayOf t)) 1 1 * nsPerDay

/-- `EventCounts::increment` at instant `now`: bump all seven buckets.
`none` models the panic inside the weeks-key computation (the task dies and
no post-increment state exists). -/
def EventCounts.increment (c : EventCounts) (now : Int) : Option EventCounts :=
  match keyWeeks now with
  | none => none
  | some wk => some
      { seconds := bump c.seconds (keySeconds now)
        minutes := bump c.minutes (keyMinutes now)
        hours := bump c.hours (keyHours now)
        days := bump c.days (keyDays now)
        weeks := bump c.weeks wk
        months := bump c.months (keyMonths now)
        years := bump c.years (keyYears now) }

/-- The counts part of one `ReceiveEvent` command as executed by
`MonitorData::receive_event`: `trim_all` (reached through `trim`) and then
`increment`, both at the command instant. -/
def countsStep (c : EventCounts) (now : Int) : Option EventCounts :=
  (c.trim_all now).increment now

/-- Iterated `ReceiveEvent` count actions at the given instants. -/
def runCounts : EventCounts → List Int → Option EventCounts
  | c, [] => some c
  | c, t :: ts =>
    match countsStep c t with
    | none => none
    | some c2 => runCounts c2 ts

/-- `data.rs::MonitorData`.  The ring entries are `Arc<RwLock<MonitorEvent>>`
in the source; they are modelled by value with explicit state passing. -/
structure MonitorData where
  counts : EventCounts
  recent_events : List MonitorEvent
deriving Repr, DecidableEq

/-- `MonitorData::default()`. -/
def MonitorData.empty : MonitorData := ⟨EventCounts.empty, []⟩

/-- `MonitorData::receive_line`: append the line (not an event line) to every
event that still awaits lines from the same source and decrement its
`awaiting_lines`. -/
def MonitorData.receive_line (md : MonitorData) (now : Int) (lineText source : String) :
    MonitorData :=
  { md with
    recent_events := md.recent_events.map (fun ev =>
      if 0 < ev.awaiting_lines ∧ ev.awaiting_lines_from = source then
        { ev with
          lines := ev.lines ++ [⟨now, lineText, false⟩]
          awaiting_lines := ev.awaiting_lines - 1 }
      else ev) }

/-- The ring half of `MonitorData::trim`:
`recent_events.drain(0..=(len - keep))` when `len > keep`.  The inclusive
range removes `len - keep + 1` elements, and for `keep = 0` its end index
equals `len + 1`, which is out of bounds — `Vec::drain` panics (`none`). -/
def drainEvents (events : List MonitorEvent) (keep : Nat) :
    Option (List MonitorEvent) :=
  if keep < events.length then
    if keep = 0 then none
    else some (events.drop (events.length - keep + 1))
  else some events

/-- A waiter thread spawned by `MonitorData::receive_event`: it holds the
notifier ids and (a shared reference to) the event it will dispatch. -/
structure WaiterSpawn where
  notifier_ids : List String
  event : MonitorEvent
deriving Repr, DecidableEq

/-- `MonitorData::receive_event`: optionally push the event, `trim` (ring
drain plus `counts.trim_all`), `counts.increment`, and if notifier ids are
present spawn a waiter on `recent_events.last()`.  `none` models the three
panic paths: the out-of-bounds drain (`keep = 0` with a non-empty ring), the
weeks-key panic inside `increment`, and the
`.last().expect(..)` on an empty ring. -/
def MonitorData.receive_event (md : MonitorData) (now : Int) (ev : MonitorEvent)
    (keep_num_events : Option Nat) (notifier_ids : Option (List String)) :
    Option (MonitorData × Option WaiterSpawn) :=
  let pushed := match keep_num_events with
    | none => md.recent_events
    | some _ => md.recent_events ++ [ev]
  let keep := match keep_num_events with
    | none => 0
    | some k => k
  match drainEvents pushed keep with
  | none => none
  | some evs =>
    match (md.counts.trim_all now).increment now with
    | none => none
    | some c2 =>
      match notifier_ids with
      | none => some (⟨c2, evs⟩, none)
      | some ids =>
        match evs.getLast? with
        | none => none
        | some lastEv => some (⟨c2, evs⟩, some ⟨ids, lastEv⟩)

/-- `config.rs::MonitorConfig`.  The compiled regular expression is modelled
by its observable behavior: the `is_match` test.  (`monitor.rs` also runs
`captures_iter` to extract a `variant` string, which does not influence any
field of the store-side event and is not modelled.) -/
structure MonitorConfig where
  regex_is_match : String → Bool
  log_recent_events : Option Nat
  keep_lines_before : Option Nat
  keep_lines_after : Option Nat
  log_counts : Bool
  max_wait_before_notify : Nat

/-- `Monitor::handle_line` (`monitor.rs`): on a regex match, build the event
whose `lines` are a slice of the per-path ring of previous lines followed by
the matched line marked as the event line. -/
def Monitor.handle_line (cfg : MonitorConfig) (now : Int) (lineText source : String)
    (previous_lines : Option (List LogLine)) : Option MonitorEvent :=
  if cfg.regex_is_match lineText then
    let log_line : LogLine := ⟨now, lineText, true⟩
    let lines := match cfg.keep_lines_before with
      | some keep_lines =>
        match previous_lines with
        | some prev =>
          let range_start := if keep_lines ≤ prev.length
            then prev.length - keep_lines
            else prev.length
          prev.drop range_start ++ [log_line]
        | none => [log_line]
      | none => [log_line]
    some
      { lines := lines
        awaiting_lines := cfg.keep_lines_after.getD 0
        awaiting_lines_from := source
        notify_by := now + (cfg.max_wait_before_notify : Int) * nsPerSec }
  else none

/-- `LogLine::to_string()`: rendered date, a space, then the line text.  The
chrono date renderer is shared by every line and is passed in as `dateStr`. -/
def LogLine.render (dateStr : Int → String) (l : LogLine) : String :=
  dateStr l.date ++ " " ++ l.line

/-- The dash rule around an event line, capped at 100 characters
(`MonitorEvent::get_lines_as_markdown`). -/
def dashWrap (rendered : String) : String :=
  String.mk (List.replicate (min rendered.length 100) (Char.ofNat 45))

/-- `MonitorEvent::get_lines_as_markdown`: every line on its own row inside a
fenced code block, event lines surrounded by dash rules. -/
def MonitorEvent.get_lines_as_markdown (dateStr : Int → String)
    (ev : MonitorEvent) : String :=
  "\n```" ++
    String.intercalate "\n" (ev.lines.map (fun i =>
      if i.is_event_line then
        let w := dashWrap (LogLine.render dateStr i)
        "\n" ++ w ++ "\n" ++ LogLine.render dateStr i ++ "\n" ++ w ++ "\n"
      else LogLine.render dateStr i)) ++
  "\n```\n"

/-- Per-notifier mutable state plus the parts of its configuration used by
`notify_event` (`notifier.rs::Notifier`, webhook back-end). -/
structure NotifierState where
  minimum_interval : Option Nat
  template : String
  last_notify : Int
  skipped_notifications : Nat
deriving Repr, DecidableEq

/-- `notifier.rs::skip_if_inside_minimum_interval`: if a minimum interval is
configured and `now - interval ≤ last_notify`, count a skip and report true. -/
def skip_if_inside_minimum_interval (n : NotifierState) (now : Int) :
    NotifierState × Bool :=
  match n.minimum_interval with
  | some minimum_interval =>
    if now - (minimum_interval : Int) * nsPerSec ≤ n.last_notify then
      ({ n with skipped_notifications := n.skipped_notifications + 1 }, true)
    else (n, false)
  | none => (n, false)

/-- The skip note appended to a webhook body
(`WebhookBackEnd::notify_event`). -/
def skippedStr (skipped_notifications : Nat) : String :=
  if skipped_notifications = 0 then ""
  else "\n\n(" ++ toString skipped_notifications ++
    " notifications skipped due to high frequency)"

/-- One outbound webhook POST (observable effect of
`WebhookBackEnd::notify_event`). -/
structure WebhookPost where
  sentAt : Int
  numSkipped : Nat
  body : String
deriving Repr, DecidableEq

/-- `notifier.rs::notify_event`: drop the event when inside the minimum
interval, otherwise capture and reset the skip counter, advance
`last_notify`, and POST `template + markdown + skip note`. -/
def notify_event (dateStr : Int → String) (n : NotifierState) (now : Int)
    (ev : MonitorEvent) : NotifierState × Option WebhookPost :=
  let (n1, skip) := skip_if_inside_minimum_interval n now
  if skip then (n1, none)
  else
    let num_skipped := n1.skipped_notifications
    ({ n1 with skipped_notifications := 0, last_notify := now },
      some ⟨now, num_skipped,
        n1.template ++ ev.get_lines_as_markdown dateStr ++ skippedStr num_skipped⟩)

/-- The notifier task consuming a sequence of `NotifyEvent` commands for a
single notifier (`notifier.rs::start_task` restricted to one notifier id). -/
def runNotifier (dateStr : Int → String) (n : NotifierState) :
    List (Int × MonitorEvent) → NotifierState × List WebhookPost
  | [] => (n, [])
  | (t, ev) :: rest =>
    let (n1, post) := notify_event dateStr n t ev
    let (n2, posts) := runNotifier dateStr n1 rest
    (n2, post.toList ++ posts)

/-- Does `pat` occur at the head of `hay`? -/
def leadsList : List Char → List Char → Bool
  | [], _ => true
  | _ :: _, [] => false
  | a :: as, b :: bs => a == b && leadsList as bs

/-- Does `pat` occur contiguously anywhere in `hay`? -/
def occursIn (pat : List Char) : List Char → Bool
  | [] => leadsList pat []
  | b :: bs => leadsList pat (b :: bs) || occursIn pat bs

/-- Substring containment on strings, used to express that a webhook body
contains the skip note. -/
def containsSub (hay pat : String) : Bool := occursIn pat.data hay.data

/-- `data.rs::FileSetData`: per-monitor data for one file set. -/
structure FileSetData where
  monitor_data : List (String × MonitorData)
deriving Repr, DecidableEq

/-- Replace the value at an existing key, or append the binding
(`HashMap::insert` semantics on an association list). -/
def alistSet {α : Type} (m : List (String × α)) (k : String) (v : α) :
    List (String × α) :=
  if (m.lookup k).isSome then
    m.map (fun kv => if kv.1 == k then (k, v) else kv)
  else m ++ [(k, v)]

/-- The data-path commands of the store task
(`data.rs::DataStoreMessage`).  `NotifyFilesSeen`, `Persist` and `Shutdown`
only read state or leave it unchanged; persistence is modelled separately. -/
inductive DataStoreMessage where
  | ReceiveLine (fsid mid lineText source : String)
  | ReceiveEvent (fsid mid : String) (ev : MonitorEvent)
      (keep_num_events : Option Nat) (notifier_ids : Option (List String))
  | FileSeen (fsid path : String)

/-- All mutable store state owned by the store task. -/
structure StoreState where
  filesets_data : List (String × FileSetData)
  files_last_seen : List (String × List (String × Int))
deriving Repr, DecidableEq

/-- `data.rs::fetch_monitor_data`: the two `.expect(..)` calls on unknown
ids are panics, modelled as `none`. -/
def fetch_monitor_data (filesets_data : List (String × FileSetData))
    (file_set_id monitor_id : String) : Option MonitorData :=
  match filesets_data.lookup file_set_id with
  | none => none
  | some fs_data => fs_data.monitor_data.lookup monitor_id

/-- Write back the monitor data mutated in place through the `&mut` borrow
obtained from `fetch_monitor_data`. -/
def putMonitorData (filesets_data : List (String × FileSetData))
    (file_set_id monitor_id : String) (md : MonitorData) :
    List (String × FileSetData) :=
  filesets_data.map (fun fs =>
    if fs.1 == file_set_id then
      (fs.1, ⟨alistSet fs.2.monitor_data monitor_id md⟩)
    else fs)

/-- One iteration of the store task loop (`data.rs::start_task`): dispatch a
single command against the state.  `none` models a panic that kills the
store task. -/
def start_task_step (st : StoreState) (now : Int) (msg : DataStoreMessage) :
    Option (StoreState × Option WaiterSpawn) :=
  match msg with
  | .ReceiveLine fsid mid lineText source =>
    match fetch_monitor_data st.filesets_data fsid mid with
    | none => none
    | some md =>
      some ({ st with
        filesets_data :=
          putMonitorData st.filesets_data fsid mid (md.receive_line now lineText source) },
        none)
  | .ReceiveEvent fsid mid ev keep nids =>
    match fetch_monitor_data st.filesets_data fsid mid with
    | none => none
    | some md =>
      match md.receive_event now ev keep nids with
      | none => none
      | some (md2, w) =>
        some ({ st with filesets_data := putMonitorData st.filesets_data fsid mid md2 }, w)
  | .FileSeen fsid path =>
    let inner := (st.files_last_seen.lookup fsid).getD []
    some ({ st with
      files_last_seen := alistSet st.files_last_seen fsid (alistSet inner path now) },
      none)

/-- Wall-clock instant of the waiter thread's `n`-th poll: the thread sleeps
one second between polls. -/
def pollTime (t0 : Int) (n : Nat) : Int := t0 + (n : Int) * nsPerSec

/-- The waiter loop's stay-waiting condition at poll `n`:
`ev.awaiting_lines > 0 && ev.notify_by > Utc::now()`, reading the shared
event through its lock.  `snap n` is the event's state at the `n`-th poll
(it is mutated concurrently by `receive_line`). -/
def waiterContinues (snap : Nat → MonitorEvent) (t0 : Int) (n : Nat) : Bool :=
  decide (0 < (snap n).awaiting_lines) && decide (pollTime t0 n < (snap n).notify_by)

/-- First index at or after `start` (within `fuel` steps) where `p` holds. -/
def firstTrue (p : Nat → Bool) : Nat → Nat → Option Nat
  | _, 0 => none
  | start, fuel + 1 => if p start then some start else firstTrue p (start + 1) fuel

/-- Polls until the deadline can certainly be reached. -/
def waiterFuel (t0 : Int) (snap : Nat → MonitorEvent) : Nat :=
  ((snap 0).notify_by - t0).toNat / 1000000000 + 2

/-- The waiter thread spawned by `MonitorData::receive_event`: poll once a
second until the event stops awaiting lines or passes `notify_by`, then send
exactly one `NotifyEvent` carrying a by-value clone of the event; the loop
then sets `done` and the thread exits.  The result is the dispatch poll
index and the cloned event. -/
def waiterRun (snap : Nat → MonitorEvent) (t0 : Int)
    (notifier_ids : List String) : Option (Nat × List (List String × MonitorEvent)) :=
  match firstTrue (fun n => ! waiterContinues snap t0 n) 0 (waiterFuel t0 snap) with
  | none => none
  | some n => some (n, [(notifier_ids, snap n)])

/-- The JSON values produced by `persist_data`: numbers, objects keyed by
RFC3339-rendered timestamps (represented by the timestamp, whose RFC3339
rendering chrono round-trips losslessly), and objects keyed by id or field
strings. -/
inductive Json where
  | num (n : Nat)
  | tsObj (fields : List (Int × Json))
  | strObj (fields : List (String × Json))
deriving Repr

/-- serde encoding of one counts bucket. -/
def encodeBucket (m : List (Int × Nat)) : Json :=
  .tsObj (m.map (fun kv => (kv.1, .num kv.2)))

/-- serde decoding of the entries of one counts bucket. -/
def decodeBucketFields : List (Int × Json) → Option (List (Int × Nat))
  | [] => some []
  | (k, .num n) :: rest => (decodeBucketFields rest).map (fun r => (k, n) :: r)
  | _ => none

/-- serde decoding of one counts bucket. -/
def decodeBucket : Json → Option (List (Int × Nat))
  | .tsObj fields => decodeBucketFields fields
  | _ => none

/-- serde encoding of `EventCounts` (fields in declaration order). -/
def encodeCounts (c : EventCounts) : Json :=
  .strObj
    [("seconds", encodeBucket c.seconds), ("minutes", encodeBucket c.minutes),
     ("hours", encodeBucket c.hours), ("days", encodeBucket c.days),
     ("weeks", encodeBucket c.weeks), ("months", encodeBucket c.months),
     ("years", encodeBucket c.years)]

/-- serde decoding of `EventCounts`. -/
def decodeCounts : Json → Option EventCounts
  | .strObj [("seconds", js), ("minutes", jmi), ("hours", jh), ("days", jd),
      ("weeks", jw), ("months", jmo), ("years", jy)] =>
    match decodeBucket js, decodeBucket jmi, decodeBucket jh, decodeBucket jd,
        decodeBucket jw, decodeBucket jmo, decodeBucket jy with
    | some bs, some bmi, some bh, some bd, some bw, some bmo, some by2 =>
      some ⟨bs, bmi, bh, bd, bw, bmo, by2⟩
    | _, _, _, _, _, _, _ => none
  | _ => none

/-- The snapshot type written to disk:
`HashMap<FileSetId, HashMap<MonitorId, EventCounts>>`. -/
abbrev SaveData := List (String × List (String × EventCounts))

/-- `data.rs::persist_data`: project every monitor's counts (recent events
and last-seen data are not persisted) and serialize to JSON. -/
def persist_data (filesets_data : List (String × FileSetData)) : Json :=
  .strObj (filesets_data.map (fun fs =>
    (fs.1, .strObj (fs.2.monitor_data.map (fun m => (m.1, encodeCounts m.2.counts))))))

/-- The counts snapshot `persist_data` is meant to capture. -/
def savedCountsOf (filesets_data : List (String × FileSetData)) : SaveData :=
  filesets_data.map (fun fs =>
    (fs.1, fs.2.monitor_data.map (fun m => (m.1, m.2.counts))))

/-- serde decoding of one file set's monitor-to-counts object. -/
def decodeMonitorCounts : List (String × Json) → Option (List (String × EventCounts))
  | [] => some []
  | (mid, j) :: rest =>
    match decodeCounts j with
    | none => none
    | some c => (decodeMonitorCounts rest).map (fun r => (mid, c) :: r)

/-- serde decoding of the top-level fileset object. -/
def decodeSaveFields : List (String × Json) → Option SaveData
  | [] => some []
  | (fsid, .strObj monitors) :: rest =>
    match decodeMonitorCounts monitors with
    | none => none
    | some ms => (decodeSaveFields rest).map (fun r => (fsid, ms) :: r)
  | _ => none

/-- `data.rs::load_data_from_file`: parse the JSON snapshot back into the
nested counts maps (`none` models a parse error). -/
def load_data_from_file : Json → Option SaveData
  | .strObj fields => decodeSaveFields fields
  | _ => none

/-- Invariant of a single counts bucket: duplicate-free keys that all
satisfy a key predicate. -/
def BucketInv (m : List (Int × Nat)) (P : Int → Prop) : Prop :=
  (m.map Prod.fst).Nodup ∧ ∀ kv ∈ m, P kv.1

/-- Invariant of the seven counts maps after a completed count action at
instant `T`: per bucket, keys are distinct, correctly shaped (aligned to the
granularity, or a month start / year start / Monday), and contained in a
bounded window around `T`. -/
def CountsInv (c : EventCounts) (T : Int) : Prop :=
  BucketInv c.seconds
    (fun k => k % nsPerSec = 0 ∧ T - 3600 * nsPerSec ≤ k ∧ k ≤ T) ∧
  BucketInv c.minutes
    (fun k => k % (60 * nsPerSec) = 0 ∧ T - 86400 * nsPerSec ≤ k ∧ k ≤ T) ∧
  BucketInv c.hours
    (fun k => k % (3600 * nsPerSec) = 0 ∧ T - 604800 * nsPerSec ≤ k ∧ k ≤ T) ∧
  BucketInv c.days
    (fun k => k % nsPerDay = 0 ∧ T - 2419200 * nsPerSec ≤ k ∧ k ≤ T) ∧
  BucketInv c.weeks
    (fun k => k % (7 * nsPerDay) = 4 * nsPerDay ∧
      T - 370 * nsPerDay ≤ k ∧ k ≤ T + 368 * nsPerDay) ∧
  BucketInv c.months
    (fun k => (∃ i, k = monthStartD i * nsPerDay) ∧
      T - 1488 * nsPerDay ≤ k ∧ k ≤ T) ∧
  BucketInv c.years
    (fun k => (∃ i, k = daysFromCivil i 1 1 * nsPerDay) ∧
      T - 3650 * nsPerDay ≤ k ∧ k ≤ T)

/-- Wall-clock instants of successive store commands are non-decreasing. -/
def timesSorted : List Int → Bool
  | [] => true
  | [_] => true
  | a :: b :: rest => (decide (a ≤ b)) && timesSorted (b :: rest)

-- Sanity checks of the calendar embedding against known proleptic
-- Gregorian / ISO 8601 facts (values cross-checked externally).
example : daysFromCivil 1970 1 1 = 0 := by decide
example : daysFromCivil 2024 12 30 = 20087 := by decide
example : daysFromCivil 2024 1 1 = 19723 := by decide
example : daysFromCivil 2000 2 29 = 11016 := by decide
example : daysFromCivil 2100 2 28 = 47540 := by decide
example : daysFromCivil 2020 3 1 = 18322 := by decide
example : yearOf 20087 = 2024 ∧ monthOf 20087 = 12 ∧ domOf 20087 = 30 := by decide
example : yearOf 0 = 1970 ∧ monthOf 0 = 1 ∧ domOf 0 = 1 := by decide
example : yearOf 11016 = 2000 ∧ monthOf 11016 = 2 ∧ domOf 11016 = 29 := by decide
example : yearOf (-3) = 1969 ∧ monthOf (-3) = 12 ∧ domOf (-3) = 29 := by decide
example : isoWeekday 0 = 4 := by decide
example : isoWeekday 20087 = 1 := by decide
example : isoWeekPair 20087 = (2025, 1) := by decide
example : isoWeekPair 20819 = (2026, 53) := by decide
example : isoWeekPair 18993 = (2021, 52) := by decide
example : isoWeekPair 0 = (1970, 1) := by decide
example : weeksInIsoYear 2020 = 53 ∧ weeksInIsoYear 2021 = 52 := by decide
example : weeksInIsoYear 2026 = 53 ∧ weeksInIsoYear 2027 = 52 := by decide
example : isoywdMonday 2024 1 = some 19723 := by decide
example : isoywdMonday 2027 53 = none := by decide
example : isoywdMonday 2022 52 = some 19352 := by decide

/-- Linear approximation of the year-start table, exact to within a
bounded error: `400 * daysToYear y = 146097 * y + e` with `-396 ≤ e ≤ 699`. -/
theorem daysToYear_approx (y : Int) :
    146097 * y - 396 ≤ 400 * daysToYear y ∧ 400 * daysToYear y ≤ 146097 * y + 699 := by
  unfold daysToYear
  omega

/-- `leapB` is 0 or 1. -/
theorem leapB_bounds (y : Int) : 0 ≤ leapB y ∧ leapB y ≤ 1 := by
  unfold leapB
  split <;> omega

/-- A year has `365 + leapB` days. -/
theorem daysToYear_succ (y : Int) :
    daysToYear (y + 1) = daysToYear y + 365 + leapB y := by
  unfold daysToYear leapB isLeap
  split
  case isTrue h =>
    simp only [Bool.or_eq_true, Bool.and_eq_true, beq_iff_eq, bne_iff_ne] at h
    rcases h with ⟨h4, h100⟩ | h400 <;> omega
  case isFalse h =>
    simp only [Bool.or_eq_true, Bool.and_eq_true, beq_iff_eq, bne_iff_ne] at h
    push_neg at h
    rcases h with ⟨h1, h400⟩
    rcases Decidable.em (y % 4 = 0) with h4 | h4
    · rcases h1 h4 with h100
      omega
    · omega

/-- January 1 as an epoch day. -/
theorem daysFromCivil_jan1 (y : Int) :
    daysFromCivil y 1 1 = daysToYear y - epochShift := by
  unfold daysFromCivil monthOffset
  norm_num

/-- `yearOf` finds the calendar year: its year start is at or before `z`,
and the next year starts strictly after `z`. -/
theorem yearOf_correct (z : Int) :
    daysToYear (yearOf z) ≤ z + epochShift ∧
    z + epochShift < daysToYear (yearOf z + 1) := by
  unfold yearOf
  have a1 := daysToYear_approx (400 * (z + epochShift) / 146097 - 1)
  have a2 := daysToYear_approx (400 * (z + epochShift) / 146097)
  have a3 := daysToYear_approx (400 * (z + epochShift) / 146097 + 1)
  have a4 := daysToYear_approx (400 * (z + epochShift) / 146097 + 2)
  have a5 := daysToYear_approx (400 * (z + epochShift) / 146097 + 3)
  have e1 : 400 * (z + epochShift) / 146097 - 1 + 1 =
      400 * (z + epochShift) / 146097 := by ring
  have e2 : 400 * (z + epochShift) / 146097 + 1 + 1 =
      400 * (z + epochShift) / 146097 + 2 := by ring
  have e3 : 400 * (z + epochShift) / 146097 + 2 + 1 =
      400 * (z + epochShift) / 146097 + 3 := by ring
  split
  · rw [e1]
    unfold epochShift at *
    omega
  · split
    · unfold epochShift at *
      omega
    · split
      · rw [e2]
        unfold epochShift at *
        omega
      · rw [e3]
        unfold epochShift at *
        omega

/-- Ordinal-in-year bounds. -/
theorem doy0_bounds (z : Int) :
    0 ≤ doy0 z ∧ doy0 z ≤ 364 + leapB (yearOf z) := by
  have h := yearOf_correct z
  have hs := daysToYear_succ (yearOf z)
  unfold doy0
  rw [daysFromCivil_jan1]
  omega

set_option maxRecDepth 100000 in
/-- `monthdayOfDoy` on the finitely many valid ordinals: month in 1..12,
day in 1..31, and the month offset decomposes the ordinal. -/
theorem monthdayOfDoy_correct_nat :
    ∀ leap : Bool, ∀ n : Nat, n < (if leap then 366 else 365) →
    1 ≤ (monthdayOfDoy leap (n : Int)).1 ∧ (monthdayOfDoy leap (n : Int)).1 ≤ 12 ∧
    1 ≤ (monthdayOfDoy leap (n : Int)).2 ∧ (monthdayOfDoy leap (n : Int)).2 ≤ 31 ∧
    monthOffset leap (monthdayOfDoy leap (n : Int)).1 +
      ((monthdayOfDoy leap (n : Int)).2 - 1) = (n : Int) := by
  decide

/-- `monthdayOfDoy` returns a month in 1..12 and a day in 1..31 whose
month offset decomposes the ordinal. -/
theorem monthdayOfDoy_correct (leap : Bool) (doy m d : Int) (h0 : 0 ≤ doy)
    (h1 : doy ≤ 364 + (if leap then (1 : Int) else 0))
    (hmd : monthdayOfDoy leap doy = (m, d)) :
    1 ≤ m ∧ m ≤ 12 ∧ 1 ≤ d ∧ d ≤ 31 ∧ monthOffset leap m + (d - 1) = doy := by
  have hn : doy.toNat < (if leap then 366 else 365) := by
    cases leap <;> norm_num at h1 ⊢ <;> omega
  have h := monthdayOfDoy_correct_nat leap doy.toNat hn
  rw [Int.toNat_of_nonneg h0] at h
  rw [hmd] at h
  exact h

/-- The month component at `z` names the month whose start is at most 30 days
before `z`. -/
theorem monthOf_correct (z : Int) :
    1 ≤ monthOf z ∧ monthOf z ≤ 12 ∧
    daysFromCivil (yearOf z) (monthOf z) 1 ≤ z ∧
    z ≤ daysFromCivil (yearOf z) (monthOf z) 1 + 30 := by
  have hd := doy0_bounds z
  have h1 : doy0 z ≤ 364 + (if isLeap (yearOf z) then (1 : Int) else 0) := by
    have := hd.2
    unfold leapB at this
    exact this
  have h := monthdayOfDoy_correct (isLeap (yearOf z)) (doy0 z) (monthOf z) (domOf z)
    hd.1 h1 (by rw [monthOf, domOf])
  have hz : z = daysToYear (yearOf z) - epochShift + doy0 z := by
    unfold doy0
    rw [daysFromCivil_jan1]
    ring
  unfold daysFromCivil
  omega

/-- No months strictly before January. -/
theorem monthOffset_1 (leap : Bool) : monthOffset leap 1 = 0 := by
  unfold monthOffset
  norm_num

/-- 334 or 335 days strictly before December. -/
theorem monthOffset_12 (leap : Bool) :
    monthOffset leap 12 = 334 + (if leap then (1 : Int) else 0) := by
  unfold monthOffset
  norm_num

/-- Consecutive month offsets differ by at least 28 (finite check). -/
theorem monthOffset_gap_nat :
    ∀ leap : Bool, ∀ n : Nat, 1 ≤ n → n ≤ 11 →
    28 ≤ monthOffset leap ((n : Int) + 1) - monthOffset leap (n : Int) := by
  decide

/-- Consecutive month offsets differ by at least 28. -/
theorem monthOffset_gap (leap : Bool) (m : Int) (h1 : 1 ≤ m) (h2 : m ≤ 11) :
    28 ≤ monthOffset leap (m + 1) - monthOffset leap m := by
  have h := monthOffset_gap_nat leap m.toNat (by omega) (by omega)
  rw [Int.toNat_of_nonneg (by omega : 0 ≤ m)] at h
  exact h

/-- A (year, month) pair written as an absolute month index. -/
theorem monthStartD_of (y m : Int) (h1 : 1 ≤ m) (h2 : m ≤ 12) :
    monthStartD (12 * y + (m - 1)) = daysFromCivil y m 1 := by
  have hq : (12 * y + (m - 1)) / 12 = y := by omega
  have hr : (12 * y + (m - 1)) % 12 = m - 1 := by omega
  unfold monthStartD
  rw [hq, hr]
  have hm : m - 1 + 1 = m := by ring
  rw [hm]

/-- Consecutive month starts are at least 28 days apart. -/
theorem monthStartD_gap (i : Int) : 28 ≤ monthStartD (i + 1) - monthStartD i := by
  have h0 : 0 ≤ i % 12 ∧ i % 12 < 12 := by omega
  rcases Decidable.em (i % 12 = 11) with h | h
  · have hq : (i + 1) / 12 = i / 12 + 1 := by omega
    have hr : (i + 1) % 12 = 0 := by omega
    unfold monthStartD
    rw [hq, hr, h]
    norm_num
    rw [daysFromCivil, daysFromCivil, monthOffset_1, monthOffset_12,
      daysToYear_succ]
    unfold leapB
    split <;> omega
  · have hq : (i + 1) / 12 = i / 12 := by omega
    have hr : (i + 1) % 12 = i % 12 + 1 := by omega
    unfold monthStartD
    rw [hq, hr]
    have hg := monthOffset_gap (isLeap (i / 12)) (i % 12 + 1) (by omega) (by omega)
    unfold daysFromCivil
    omega

/-- ISO weekdays lie in 1..7. -/
theorem isoWeekday_bounds (z : Int) : 1 ≤ isoWeekday z ∧ isoWeekday z ≤ 7 := by
  unfold isoWeekday
  omega

/-- An ISO year has 52 or 53 weeks. -/
theorem weeksInIsoYear_bounds (y : Int) :
    52 ≤ weeksInIsoYear y ∧ weeksInIsoYear y ≤ 53 := by
  unfold weeksInIsoYear
  split <;> omega

/-- The ISO week number of any day lies in 1..53. -/
theorem isoWeekPair_week_bounds (z : Int) :
    1 ≤ (isoWeekPair z).2 ∧ (isoWeekPair z).2 ≤ 53 := by
  have h1 := weeksInIsoYear_bounds (yearOf z - 1)
  have h2 := weeksInIsoYear_bounds (yearOf z)
  unfold isoWeekPair
  dsimp only
  split
  · dsimp only
    omega
  · split <;> dsimp only <;> omega

/-- The Monday of ISO week 1 is within three days of January 1 and is
Monday-aligned. -/
theorem mondayOfIsoWeek1_bounds (y : Int) :
    daysFromCivil y 1 1 - 3 ≤ mondayOfIsoWeek1 y ∧
    mondayOfIsoWeek1 y ≤ daysFromCivil y 1 1 + 3 ∧
    (mondayOfIsoWeek1 y + 3) % 7 = 0 := by
  have e4 : daysFromCivil y 1 4 = daysFromCivil y 1 1 + 3 := by
    unfold daysFromCivil
    ring
  unfold mondayOfIsoWeek1
  dsimp only
  rw [e4]
  unfold isoWeekday
  omega

/-- Any weeks-map key is Monday-aligned and within 369 days before or
367 days after the instant that produced it. -/
theorem weekKeyDay_bounds (z k : Int) (hk : weekKeyDay z = some k) :
    (k + 3) % 7 = 0 ∧ z - 369 ≤ k ∧ k ≤ z + 367 := by
  have hw := isoWeekPair_week_bounds z
  have hy := yearOf_correct z
  have hm := mondayOfIsoWeek1_bounds (yearOf z)
  have hs := daysToYear_succ (yearOf z)
  have hb := leapB_bounds (yearOf z)
  have hwy := weeksInIsoYear_bounds (yearOf z)
  have hj := daysFromCivil_jan1 (yearOf z)
  unfold weekKeyDay isoywdMonday at hk
  split at hk
  · rw [Option.some.injEq] at hk
    subst hk
    refine ⟨by omega, by omega, by omega⟩
  · exact absurd hk (by simp)

/-- The years-map key (January 1 of the calendar year) is at most `z` and
less than 366 days before `z`. -/
theorem yearKey_bounds (z : Int) :
    daysFromCivil (yearOf z) 1 1 ≤ z ∧ z < daysFromCivil (yearOf z) 1 1 + 366 := by
  have hy := yearOf_correct z
  have hs := daysToYear_succ (yearOf z)
  have hb := leapB_bounds (yearOf z)
  rw [daysFromCivil_jan1]
  omega

/-- Consecutive year starts are at least 365 days apart. -/
theorem yearStart_gap (i : Int) :
    365 ≤ daysFromCivil (i + 1) 1 1 - daysFromCivil i 1 1 := by
  have hs := daysToYear_succ i
  have hb := leapB_bounds i
  rw [daysFromCivil_jan1, daysFromCivil_jan1]
  omega

/-- C1: for a monitor with `keep_lines_before = Some 2` matching a line while
the per-path ring holds one entry, the spec requires `lines` = the ring entry
followed by the matched line (2 entries); `handle_line` instead sets
`range_start` to the ring length whenever the ring is shorter than
`keep_lines_before`, so the whole ring is skipped and `lines` is just the
matched line (1 entry). -/
theorem C1_handle_line_drops_short_ring :
    (Monitor.handle_line ⟨fun _ => true, none, some 2, none, false, 0⟩ 0 "boom" "p"
        (some [⟨0, "a", false⟩])).map MonitorEvent.lines
      = some [⟨0, "boom", true⟩] ∧
    ¬ ((Monitor.handle_line ⟨fun _ => true, none, some 2, none, false, 0⟩ 0 "boom" "p"
        (some [⟨0, "a", false⟩])).map (fun ev => ev.lines.length) = some 2) := by
  constructor
  · rfl
  · decide

/-- C2: with `keep_recent = Some 1`, the first `ReceiveEvent` leaves one ring
entry, but the second triggers `drain(0..=(2 - 1))`, which removes two
elements: the ring ends empty instead of holding `min(1, 2) = 1` event. -/
theorem C2_trim_drops_one_too_many :
    (MonitorData.empty.receive_event 0 ⟨[], 0, "p", 0⟩ (some 1) none).map
        (fun r => r.1.recent_events.length) = some 1 ∧
    (do
      let r1 ← MonitorData.empty.receive_event 0 ⟨[], 0, "p", 0⟩ (some 1) none
      let r2 ← r1.1.receive_event nsPerSec ⟨[], 0, "p", 0⟩ (some 1) none
      pure r2.1.recent_events.length) = some 0 ∧
    ¬ ((do
      let r1 ← MonitorData.empty.receive_event 0 ⟨[], 0, "p", 0⟩ (some 1) none
      let r2 ← r1.1.receive_event nsPerSec ⟨[], 0, "p", 0⟩ (some 1) none
      pure r2.1.recent_events.length) = some 1) := by
  refine ⟨by decide, by decide, by decide⟩

/-- C3: a `ReceiveEvent` whose monitor has `log_recent_events` unset
(`keep_recent = None`) never pushes onto `recent_events`, so with notifier
ids present the `recent_events.last().expect(..)` panics and the store task
dies — the command does not complete, for every counts state, instant and
event. -/
theorem C3_receive_event_none_with_notifiers_panics (counts : EventCounts)
    (now : Int) (ev : MonitorEvent) (ids : List String) :
    MonitorData.receive_event ⟨counts, []⟩ now ev none (some ids) = none := by
  unfold MonitorData.receive_event drainEvents
  simp only [List.length_nil]
  norm_num
  rcases (counts.trim_all now).increment now with _ | c2 <;> simp

/-- C4: a `ReceiveEvent` with `keep_recent = Some 0` pushes the event and then
calls `drain(0..=len)`, whose inclusive end is out of bounds — `Vec::drain`
panics, so the command never completes (no retention, but also no count
increment), for every prior state, instant, event and notifier ids. -/
theorem C4_receive_event_some_zero_panics (md : MonitorData) (now : Int)
    (ev : MonitorEvent) (nids : Option (List String)) :
    md.receive_event now ev (some 0) nids = none := by
  unfold MonitorData.receive_event drainEvents
  simp

/-- C6: at 2024-12-30T12:00:00Z (epoch day 20087, ISO week 2025-W01) the
weeks-map key computed by `increment` is 2024-01-01 (epoch day 19723, the
Monday of ISO week 1 of calendar year 2024), not the Monday of the ISO week
containing the instant (2024-12-30 itself); and at 2027-01-01 (epoch day
20819, ISO week 2026-W53) `Utc.isoywd(2027, 53, Mon)` is out of range and
`increment` panics. -/
theorem C6_week_key_wrong_iso_year :
    ((EventCounts.empty.increment ((20087 * 86400 + 43200) * nsPerSec)).map
        EventCounts.weeks) = some [(19723 * nsPerDay, 1)] ∧
    specIsoWeekMonday (dayOf ((20087 * 86400 + 43200) * nsPerSec)) = 20087 ∧
    (19723 : Int) * nsPerDay ≠ 20087 * nsPerDay ∧
    EventCounts.empty.increment (20819 * nsPerDay) = none := by
  refine ⟨by decide, by decide, by decide, by decide⟩

/-- C5 counterexample: with `minimum_interval = 60` and five `NotifyEvent`
commands at t = 0..4 s, the single POST produced is the one at t = 0 and its
body does not contain the skip note — the claim attributes the
"(4 notifications skipped due to high frequency)" note to that POST and a
clean body to the POST at t = 61, which is the wrong way round. -/
theorem C5_counterexample :
    ¬ (((runNotifier (fun _ => "D")
            ⟨some 60, "T", -(52 * 7 * 86400 * nsPerSec), 0⟩
            [(0, ⟨[⟨0, "boom", true⟩], 0, "p", 0⟩),
             (nsPerSec, ⟨[⟨0, "boom", true⟩], 0, "p", 0⟩),
             (2 * nsPerSec, ⟨[⟨0, "boom", true⟩], 0, "p", 0⟩),
             (3 * nsPerSec, ⟨[⟨0, "boom", true⟩], 0, "p", 0⟩),
             (4 * nsPerSec, ⟨[⟨0, "boom", true⟩], 0, "p", 0⟩)]).2.map
          (fun p => containsSub p.body
            "(4 notifications skipped due to high frequency)")) = [true] ∧
       ((runNotifier (fun _ => "D")
            ⟨some 60, "T", -(52 * 7 * 86400 * nsPerSec), 0⟩
            [(0, ⟨[⟨0, "boom", true⟩], 0, "p", 0⟩),
             (nsPerSec, ⟨[⟨0, "boom", true⟩], 0, "p", 0⟩),
             (2 * nsPerSec, ⟨[⟨0, "boom", true⟩], 0, "p", 0⟩),
             (3 * nsPerSec, ⟨[⟨0, "boom", true⟩], 0, "p", 0⟩),
             (4 * nsPerSec, ⟨[⟨0, "boom", true⟩], 0, "p", 0⟩),
             (61 * nsPerSec, ⟨[⟨0, "boom", true⟩], 0, "p", 0⟩)]).2.map
          (fun p => containsSub p.body
            "(4 notifications skipped due to high frequency)")) = [true, false]) := by
  decide

/-- C5 (amended): five `NotifyEvent` commands at t = 0..4 s produce exactly
one POST, sent at t = 0 with a captured skip count of 0 and no skip note in
its body, leaving the skip counter at 4; the sixth command at t = 61 s
produces a second POST whose body contains
"(4 notifications skipped due to high frequency)" and resets the counter. -/
theorem C5_throttle_skip_note_on_later_post :
    ((runNotifier (fun _ => "D")
        ⟨some 60, "T", -(52 * 7 * 86400 * nsPerSec), 0⟩
        [(0, ⟨[⟨0, "boom", true⟩], 0, "p", 0⟩),
         (nsPerSec, ⟨[⟨0, "boom", true⟩], 0, "p", 0⟩),
         (2 * nsPerSec, ⟨[⟨0, "boom", true⟩], 0, "p", 0⟩),
         (3 * nsPerSec, ⟨[⟨0, "boom", true⟩], 0, "p", 0⟩),
         (4 * nsPerSec, ⟨[⟨0, "boom", true⟩], 0, "p", 0⟩)]).2.map
      WebhookPost.numSkipped) = [0] ∧
    (runNotifier (fun _ => "D")
        ⟨some 60, "T", -(52 * 7 * 86400 * nsPerSec), 0⟩
        [(0, ⟨[⟨0, "boom", true⟩], 0, "p", 0⟩),
         (nsPerSec, ⟨[⟨0, "boom", true⟩], 0, "p", 0⟩),
         (2 * nsPerSec, ⟨[⟨0, "boom", true⟩], 0, "p", 0⟩),
         (3 * nsPerSec, ⟨[⟨0, "boom", true⟩], 0, "p", 0⟩),
         (4 * nsPerSec, ⟨[⟨0, "boom", true⟩], 0, "p", 0⟩)]).1.skipped_notifications
      = 4 ∧
    ((runNotifier (fun _ => "D")
        ⟨some 60, "T", -(52 * 7 * 86400 * nsPerSec), 0⟩
        [(0, ⟨[⟨0, "boom", true⟩], 0, "p", 0⟩),
         (nsPerSec, ⟨[⟨0, "boom", true⟩], 0, "p", 0⟩),
         (2 * nsPerSec, ⟨[⟨0, "boom", true⟩], 0, "p", 0⟩),
         (3 * nsPerSec, ⟨[⟨0, "boom", true⟩], 0, "p", 0⟩),
         (4 * nsPerSec, ⟨[⟨0, "boom", true⟩], 0, "p", 0⟩),
         (61 * nsPerSec, ⟨[⟨0, "boom", true⟩], 0, "p", 0⟩)]).2.map
      (fun p => (p.sentAt, p.numSkipped, containsSub p.body
        "(4 notifications skipped due to high frequency)")))
      = [(0, 0, false), (61 * nsPerSec, 4, true)] ∧
    (runNotifier (fun _ => "D")
        ⟨some 60, "T", -(52 * 7 * 86400 * nsPerSec), 0⟩
        [(0, ⟨[⟨0, "boom", true⟩], 0, "p", 0⟩),
         (nsPerSec, ⟨[⟨0, "boom", true⟩], 0, "p", 0⟩),
         (2 * nsPerSec, ⟨[⟨0, "boom", true⟩], 0, "p", 0⟩),
         (3 * nsPerSec, ⟨[⟨0, "boom", true⟩], 0, "p", 0⟩),
         (4 * nsPerSec, ⟨[⟨0, "boom", true⟩], 0, "p", 0⟩),
         (61 * nsPerSec, ⟨[⟨0, "boom", true⟩], 0, "p", 0⟩)]).1.skipped_notifications
      = 0 := by
  refine ⟨by decide, by decide, by decide, by decide⟩

/-- Looking up a key that is absent appends, and the appended binding is
found. -/
theorem lookup_append_new {α : Type} (m : List (String × α)) (k : String) (v : α)
    (h : m.lookup k = none) : (m ++ [(k, v)]).lookup k = some v := by
  induction m with
  | nil => simp [List.lookup]
  | cons kv rest ih =>
    by_cases hk : k = kv.1
    · have hb : (k == kv.1) = true := beq_iff_eq.mpr hk
      simp [List.lookup, hb] at h
    · have hb : (k == kv.1) = false := beq_eq_false_iff_ne.mpr hk
      simp only [List.cons_append, List.lookup, hb]
      apply ih
      simpa [List.lookup, hb] using h

/-- Replacing the value at a present key is found by lookup. -/
theorem lookup_map_set {α : Type} (m : List (String × α)) (k : String) (v : α)
    (h : (m.lookup k).isSome) :
    (m.map (fun kv => if kv.1 == k then (k, v) else kv)).lookup k = some v := by
  induction m with
  | nil => simp [List.lookup] at h
  | cons kv rest ih =>
    by_cases hk : k = kv.1
    · have hb : (kv.1 == k) = true := beq_iff_eq.mpr hk.symm
      have hb2 : (k == k) = true := beq_iff_eq.mpr rfl
      simp only [List.map, hb, if_true]
      simp [List.lookup, hb2]
    · have hb : (kv.1 == k) = false := beq_eq_false_iff_ne.mpr (fun e => hk e.symm)
      have hb2 : (k == kv.1) = false := beq_eq_false_iff_ne.mpr hk
      simp only [List.map, hb, if_false]
      simp only [List.lookup, hb2]
      apply ih
      simpa [List.lookup, hb2] using h

/-- `alistSet` always makes its binding visible to lookup. -/
theorem lookup_alistSet_self {α : Type} (m : List (String × α)) (k : String) (v : α) :
    (alistSet m k v).lookup k = some v := by
  unfold alistSet
  split
  case isTrue h => exact lookup_map_set m k v h
  case isFalse h =>
    apply lookup_append_new
    rcases he : m.lookup k with _ | w
    · rfl
    · rw [he] at h
      simp at h

/-- C10: a `FileSeen` command succeeds for every store state and every
file-set id — the per-fileset map is created on demand and the path is bound
to the command instant — while `ReceiveLine` and `ReceiveEvent` commands
naming an unknown `FileSetId` panic the store task (`fetch_monitor_data`
`.expect`). -/
theorem C10_file_seen_total_unknown_ids_fatal :
    (∀ st : StoreState, ∀ now : Int, ∀ fsid path : String, ∃ st2,
        start_task_step st now (.FileSeen fsid path) = some (st2, none) ∧
        ((st2.files_last_seen.lookup fsid).getD []).lookup path = some now) ∧
    (∀ st : StoreState, ∀ now : Int, ∀ fsid mid lineText source : String,
        st.filesets_data.lookup fsid = none →
        start_task_step st now (.ReceiveLine fsid mid lineText source) = none) ∧
    (∀ st : StoreState, ∀ now : Int, ∀ fsid mid : String, ∀ ev : MonitorEvent,
        ∀ keep : Option Nat, ∀ nids : Option (List String),
        st.filesets_data.lookup fsid = none →
        start_task_step st now (.ReceiveEvent fsid mid ev keep nids) = none) := by
  refine ⟨?_, ?_, ?_⟩
  · intro st now fsid path
    refine ⟨_, rfl, ?_⟩
    rw [lookup_alistSet_self]
    simp only [Option.getD_some]
    rw [lookup_alistSet_self]
  · intro st now fsid mid lineText source h
    simp [start_task_step, fetch_monitor_data, h]
  · intro st now fsid mid ev keep nids h
    simp [start_task_step, fetch_monitor_data, h]

/-- C10 witness: the empty store state with concrete ids. -/
theorem C10_witness :
    (∃ st2, start_task_step ⟨[], []⟩ 5 (.FileSeen "fs" "a.log") = some (st2, none) ∧
        ((st2.files_last_seen.lookup "fs").getD []).lookup "a.log" = some 5) ∧
    start_task_step ⟨[], []⟩ 5 (.ReceiveLine "fs" "m" "x" "p") = none ∧
    start_task_step ⟨[], []⟩ 5 (.ReceiveEvent "fs" "m" ⟨[], 0, "p", 0⟩ none none) = none :=
  ⟨C10_file_seen_total_unknown_ids_fatal.1 ⟨[], []⟩ 5 "fs" "a.log",
   C10_file_seen_total_unknown_ids_fatal.2.1 ⟨[], []⟩ 5 "fs" "m" "x" "p" rfl,
   C10_file_seen_total_unknown_ids_fatal.2.2 ⟨[], []⟩ 5 "fs" "m" ⟨[], 0, "p", 0⟩
     none none rfl⟩

/-- Bucket entries decode back to themselves. -/
theorem decodeBucketFields_roundtrip (m : List (Int × Nat)) :
    decodeBucketFields (m.map (fun kv => (kv.1, Json.num kv.2))) = some m := by
  induction m with
  | nil => rfl
  | cons kv rest ih => simp [decodeBucketFields, ih]

/-- A counts bucket decodes back to itself. -/
theorem decodeBucket_encodeBucket (m : List (Int × Nat)) :
    decodeBucket (encodeBucket m) = some m := by
  unfold encodeBucket decodeBucket
  exact decodeBucketFields_roundtrip m

/-- `EventCounts` decodes back to itself. -/
theorem decodeCounts_encodeCounts (c : EventCounts) :
    decodeCounts (encodeCounts c) = some c := by
  rcases c with ⟨cs, cmi, ch, cd, cw, cmo, cy⟩
  simp [encodeCounts, decodeCounts, decodeBucket_encodeBucket]

/-- A monitor-to-counts object decodes back to the projected counts. -/
theorem decodeMonitorCounts_roundtrip (l : List (String × MonitorData)) :
    decodeMonitorCounts (l.map (fun m => (m.1, encodeCounts m.2.counts))) =
      some (l.map (fun m => (m.1, m.2.counts))) := by
  induction l with
  | nil => rfl
  | cons kv rest ih => simp [decodeMonitorCounts, decodeCounts_encodeCounts, ih]

/-- The top-level fileset object decodes back to the projected snapshot. -/
theorem decodeSaveFields_roundtrip (fd : List (String × FileSetData)) :
    decodeSaveFields (fd.map (fun fs =>
        (fs.1, Json.strObj (fs.2.monitor_data.map (fun m => (m.1, encodeCounts m.2.counts)))))) =
      some (fd.map (fun fs => (fs.1, fs.2.monitor_data.map (fun m => (m.1, m.2.counts))))) := by
  induction fd with
  | nil => rfl
  | cons fs rest ih => simp [decodeSaveFields, decodeMonitorCounts_roundtrip, ih]

/-- Lookup commutes with a key-preserving value map. -/
theorem lookup_map_pres {α β : Type} (g : α → β) (m : List (String × α)) (k : String) :
    (m.map (fun kv => (kv.1, g kv.2))).lookup k = (m.lookup k).map g := by
  induction m with
  | nil => rfl
  | cons kv rest ih =>
    by_cases hk : k = kv.1
    · have hb : (k == kv.1) = true := beq_iff_eq.mpr hk
      simp [List.lookup, hb]
    · have hb : (k == kv.1) = false := beq_eq_false_iff_ne.mpr hk
      simp [List.lookup, hb, ih]

/-- C9: persisting the counts snapshot and loading it back yields exactly the
snapshot that was persisted; in particular, for every `(FileSetId,
MonitorId)` pair the loaded per-granularity counts maps equal the in-memory
ones that `persist_data` projected. -/
theorem C9_persist_load_roundtrip (filesets_data : List (String × FileSetData)) :
    load_data_from_file (persist_data filesets_data) =
      some (savedCountsOf filesets_data) ∧
    ∀ fsid mid : String,
      ((load_data_from_file (persist_data filesets_data)).bind
          (fun sd => (sd.lookup fsid).bind (fun ms => ms.lookup mid)))
        = (fetch_monitor_data filesets_data fsid mid).map MonitorData.counts := by
  have hmain : load_data_from_file (persist_data filesets_data) =
      some (savedCountsOf filesets_data) := by
    unfold load_data_from_file persist_data savedCountsOf
    exact decodeSaveFields_roundtrip filesets_data
  refine ⟨hmain, ?_⟩
  intro fsid mid
  rw [hmain]
  simp only [Option.some_bind]
  unfold savedCountsOf fetch_monitor_data
  rw [lookup_map_pres (fun fsd => fsd.monitor_data.map (fun m => (m.1, m.2.counts)))
    filesets_data fsid]
  rcases filesets_data.lookup fsid with _ | fs
  · rfl
  · simp only [Option.map_some', Option.some_bind]
    rw [lookup_map_pres MonitorData.counts fs.monitor_data mid]

/-- A successful bounded search returns the least index at or after the
start where the predicate holds. -/
theorem firstTrue_spec (p : Nat → Bool) :
    ∀ fuel start n, firstTrue p start fuel = some n →
    p n = true ∧ start ≤ n ∧ ∀ m, start ≤ m → m < n → p m = false := by
  intro fuel
  induction fuel with
  | zero =>
    intro start n h
    simp [firstTrue] at h
  | succ f ih =>
    intro start n h
    unfold firstTrue at h
    by_cases hp : p start
    · rw [if_pos hp] at h
      cases h
      exact ⟨hp, Nat.le_refl _, fun m hm1 hm2 => absurd hm2 (by omega)⟩
    · rw [if_neg hp] at h
      obtain ⟨h1, h2, h3⟩ := ih (start + 1) n h
      refine ⟨h1, by omega, fun m hm1 hm2 => ?_⟩
      rcases Nat.eq_or_lt_of_le hm1 with he | hlt
      · rw [← he]
        exact Bool.eq_false_iff.mpr hp
      · exact h3 m hlt hm2

/-- The bounded search succeeds when some index within the fuel satisfies
the predicate. -/
theorem firstTrue_finds (p : Nat → Bool) :
    ∀ fuel start n, p n = true → start ≤ n → n < start + fuel →
    (firstTrue p start fuel).isSome := by
  intro fuel
  induction fuel with
  | zero =>
    intro start n _ _ h
    omega
  | succ f ih =>
    intro start n hp h1 h2
    unfold firstTrue
    by_cases hps : p start
    · rw [if_pos hps]
      rfl
    · rw [if_neg hps]
      have hne : start ≠ n := by
        intro he
        rw [he] at hps
        exact hps hp
      exact ih (start + 1) n hp (by omega) (by omega)

/-- C8: a waiter whose event still awaits lines at every poll
(`awaiting_lines` stays positive) and whose deadline never moves dispatches
anyway: `waiterRun` produces exactly one `NotifyEvent`, carrying a by-value
clone of the event as read at the dispatch poll, which is the first poll at
or past `notify_by`; every earlier poll is strictly before the deadline, and
the loop then terminates. -/
theorem C8_waiter_dispatches_once_at_deadline (snap : Nat → MonitorEvent)
    (t0 : Int) (ids : List String)
    (hnb : ∀ n, (snap n).notify_by = (snap 0).notify_by)
    (hawait : ∀ n, 0 < (snap n).awaiting_lines) :
    ∃ n, waiterRun snap t0 ids = some (n, [(ids, snap n)]) ∧
      (snap 0).notify_by ≤ pollTime t0 n ∧
      ∀ m, m < n → pollTime t0 m < (snap 0).notify_by := by
  have hpoll : ∀ k : Nat, pollTime t0 k = t0 + (k : Int) * nsPerSec := fun _ => rfl
  have hk0 : (! waiterContinues snap t0 (waiterFuel t0 snap - 1)) = true := by
    have harith : (snap 0).notify_by ≤ pollTime t0 (waiterFuel t0 snap - 1) := by
      show (snap 0).notify_by ≤
        t0 + ((((snap 0).notify_by - t0).toNat / 1000000000 + 2 - 1 : Nat) : Int) *
          (1000000000 : Int)
      omega
    have hnot : ¬ (pollTime t0 (waiterFuel t0 snap - 1) <
        (snap (waiterFuel t0 snap - 1)).notify_by) := by
      rw [hnb]
      exact not_lt.mpr harith
    have hb : decide (pollTime t0 (waiterFuel t0 snap - 1) <
        (snap (waiterFuel t0 snap - 1)).notify_by) = false := decide_eq_false hnot
    unfold waiterContinues
    rw [hb, Bool.and_false]
    rfl
  have hsome := firstTrue_finds (fun n => ! waiterContinues snap t0 n)
    (waiterFuel t0 snap) 0 (waiterFuel t0 snap - 1) hk0 (Nat.zero_le _)
    (by unfold waiterFuel; omega)
  rcases hft : firstTrue (fun n => ! waiterContinues snap t0 n) 0 (waiterFuel t0 snap)
    with _ | n
  · rw [hft] at hsome
    simp at hsome
  · obtain ⟨hpn, _, hmin⟩ :=
      firstTrue_spec (fun n => ! waiterContinues snap t0 n) (waiterFuel t0 snap) 0 n hft
    refine ⟨n, ?_, ?_, ?_⟩
    · unfold waiterRun
      rw [hft]
    · have hnotB : ¬ (pollTime t0 n < (snap n).notify_by) := by
        intro hB
        have hcont : waiterContinues snap t0 n = true := by
          unfold waiterContinues
          rw [decide_eq_true (hawait n), decide_eq_true hB]
          rfl
        rw [hcont] at hpn
        simp at hpn
      rw [hnb n] at hnotB
      exact not_lt.mp hnotB
    · intro m hm
      have hcm := hmin m (Nat.zero_le _) hm
      have hcont : waiterContinues snap t0 m = true := by
        have := congrArg Bool.not hcm
        simpa using this
      unfold waiterContinues at hcont
      have hB : pollTime t0 m < (snap m).notify_by := by
        by_cases hB : pollTime t0 m < (snap m).notify_by
        · exact hB
        · rw [decide_eq_false hB, Bool.and_false] at hcont
          exact absurd hcont (by simp)
      rw [hnb m] at hB
      exact hB

/-- C8 witness: a constant snapshot still awaiting one line with a deadline
just past the first poll. -/
theorem C8_witness :
    ∃ n, waiterRun (fun _ => ⟨[⟨0, "x", true⟩], 1, "p", nsPerSec + 1⟩) 0 ["w"]
        = some (n, [(["w"], ⟨[⟨0, "x", true⟩], 1, "p", nsPerSec + 1⟩)]) ∧
      (nsPerSec + 1 : Int) ≤ pollTime 0 n ∧
      ∀ m, m < n → pollTime 0 m < nsPerSec + 1 :=
  C8_waiter_dispatches_once_at_deadline
    (fun _ => ⟨[⟨0, "x", true⟩], 1, "p", nsPerSec + 1⟩) 0 ["w"]
    (fun _ => rfl) (fun _ => Nat.one_pos)

/-- A finite set of integers with pairwise differences bounded by `B` has at
most `B + 1` elements. -/
theorem card_le_of_bounded_diff (S : Finset Int) (B : Nat)
    (h : ∀ a ∈ S, ∀ b ∈ S, a - b ≤ (B : Int)) : S.card ≤ B + 1 := by
  rcases S.eq_empty_or_nonempty with he | hne
  · rw [he]
    simp
  · have hsub : S ⊆ Finset.Icc (S.min' hne) (S.min' hne + B) := by
      intro a ha
      rw [Finset.mem_Icc]
      refine ⟨Finset.min'_le S a ha, ?_⟩
      have := h a ha (S.min' hne) (S.min'_mem hne)
      omega
    calc S.card ≤ (Finset.Icc (S.min' hne) (S.min' hne + B)).card :=
          Finset.card_le_card hsub
      _ = B + 1 := by
          rw [Int.card_Icc]
          omega

/-- Entries whose keys share a residue class mod `d` and lie in a window of
width `span` number at most `span / d + 1`. -/
theorem length_le_of_aligned_window (m : List (Int × Nat)) (d r lo span : Int)
    (hd : 0 < d) (hspan : 0 ≤ span)
    (hnd : (m.map Prod.fst).Nodup)
    (hal : ∀ kv ∈ m, kv.1 % d = r)
    (hwin : ∀ kv ∈ m, lo ≤ kv.1 ∧ kv.1 ≤ lo + span) :
    m.length ≤ (span / d).toNat + 1 := by
  have hkey : ∀ k ∈ (m.map Prod.fst).toFinset, k % d = r ∧ lo ≤ k ∧ k ≤ lo + span := by
    intro k hk
    rw [List.mem_toFinset, List.mem_map] at hk
    obtain ⟨kv, hkv, hke⟩ := hk
    exact hke ▸ ⟨hal kv hkv, hwin kv hkv⟩
  have hinj : Set.InjOn (fun k => k / d) ((m.map Prod.fst).toFinset : Set Int) := by
    intro k1 hk1 k2 hk2 he
    have h1 := hkey k1 hk1
    have h2 := hkey k2 hk2
    have e1 := Int.ediv_add_emod k1 d
    have e2 := Int.ediv_add_emod k2 d
    dsimp at he
    rw [he] at e1
    rw [h1.1] at e1
    rw [h2.1] at e2
    omega
  have hcard1 : m.length = (m.map Prod.fst).toFinset.card := by
    rw [List.toFinset_card_of_nodup hnd, List.length_map]
  have hdiff : ∀ a ∈ (m.map Prod.fst).toFinset.image (fun k => k / d),
      ∀ b ∈ (m.map Prod.fst).toFinset.image (fun k => k / d),
      a - b ≤ ((span / d).toNat : Int) := by
    intro a ha b hb
    rw [Finset.mem_image] at ha hb
    obtain ⟨k1, hk1, he1⟩ := ha
    obtain ⟨k2, hk2, he2⟩ := hb
    have h1 := hkey k1 hk1
    have h2 := hkey k2 hk2
    have hsub : k1 - k2 ≤ span := by omega
    have e1 := Int.ediv_add_emod k1 d
    have e2 := Int.ediv_add_emod k2 d
    have hrr : k1 % d = k2 % d := by rw [h1.1, h2.1]
    have hdistrib : (k1 / d - k2 / d) * d = d * (k1 / d) - d * (k2 / d) := by ring
    have hqs : k1 / d - k2 / d ≤ span / d := by
      rw [Int.le_ediv_iff_mul_le hd]
      omega
    have htn : ((span / d).toNat : Int) = span / d := by
      have : 0 ≤ span / d := Int.ediv_nonneg hspan (le_of_lt hd)
      omega
    rw [← he1, ← he2]
    omega
  have himg := Finset.card_image_of_injOn hinj
  have hbd := card_le_of_bounded_diff
    ((m.map Prod.fst).toFinset.image (fun k => k / d)) ((span / d).toNat) hdiff
  omega

/-- Telescoped gap bound for an indexed family with per-step gaps at least
`g`. -/
theorem gap_telescope (f : Int → Int) (g : Int)
    (hgap : ∀ i, g ≤ f (i + 1) - f i) (i : Int) :
    ∀ j, i ≤ j → g * (j - i) ≤ f j - f i := by
  refine Int.le_induction ?_ ?_
  · simp
  · intro n hn ih
    have hg := hgap n
    have hr : g * (n + 1 - i) = g * (n - i) + g := by ring
    omega

/-- Entries whose keys come from a `g`-gapped increasing family and lie in a
window of width `span` number at most `span / g + 1`. -/
theorem length_le_of_gapped_window (m : List (Int × Nat)) (f : Int → Int)
    (g lo span : Int) (hg : 0 < g) (hspan : 0 ≤ span)
    (hnd : (m.map Prod.fst).Nodup)
    (hgap : ∀ i, g ≤ f (i + 1) - f i)
    (hmem : ∀ kv ∈ m, ∃ i, kv.1 = f i)
    (hwin : ∀ kv ∈ m, lo ≤ kv.1 ∧ kv.1 ≤ lo + span) :
    m.length ≤ (span / g).toNat + 1 := by
  classical
  have hkey : ∀ k ∈ (m.map Prod.fst).toFinset,
      (∃ i, k = f i) ∧ lo ≤ k ∧ k ≤ lo + span := by
    intro k hk
    rw [List.mem_toFinset, List.mem_map] at hk
    obtain ⟨kv, hkv, hke⟩ := hk
    exact hke ▸ ⟨hmem kv hkv, hwin kv hkv⟩
  have hmono : ∀ i j, i ≤ j → g * (j - i) ≤ f j - f i :=
    fun i j h => gap_telescope f g hgap i j h
  have hfinj : ∀ i j, f i = f j → i = j := by
    intro i j he
    by_contra hne
    rcases lt_or_gt_of_ne hne with hlt | hlt
    · have ht := hmono i j (le_of_lt hlt)
      have h1 : (1 : Int) ≤ j - i := by omega
      nlinarith
    · have ht := hmono j i (le_of_lt hlt)
      have h1 : (1 : Int) ≤ i - j := by omega
      nlinarith
  set idxf : Int → Int := fun k => if h : ∃ i, k = f i then Classical.choose h else 0
    with hidxf
  have hidx : ∀ k, (∃ i, k = f i) → k = f (idxf k) := by
    intro k hk
    rw [hidxf]
    dsimp
    rw [dif_pos hk]
    exact Classical.choose_spec hk
  have hinj : Set.InjOn idxf ((m.map Prod.fst).toFinset : Set Int) := by
    intro k1 hk1 k2 hk2 he
    have h1 := hidx k1 (hkey k1 hk1).1
    have h2 := hidx k2 (hkey k2 hk2).1
    rw [h1, h2, he]
  have hdiff : ∀ a ∈ (m.map Prod.fst).toFinset.image idxf,
      ∀ b ∈ (m.map Prod.fst).toFinset.image idxf,
      a - b ≤ ((span / g).toNat : Int) := by
    intro a ha b hb
    rw [Finset.mem_image] at ha hb
    obtain ⟨k1, hk1, he1⟩ := ha
    obtain ⟨k2, hk2, he2⟩ := hb
    have h1 := hkey k1 hk1
    have h2 := hkey k2 hk2
    have htn : ((span / g).toNat : Int) = span / g := by
      have : 0 ≤ span / g := Int.ediv_nonneg hspan (le_of_lt hg)
      omega
    rcases le_or_lt a b with hab | hab
    · have : (0 : Int) ≤ span / g := Int.ediv_nonneg hspan (le_of_lt hg)
      omega
    · have hfa : k1 = f a := he1 ▸ hidx k1 h1.1
      have hfb : k2 = f b := he2 ▸ hidx k2 h2.1
      have htel := hmono b a (le_of_lt hab)
      have hsub : k1 - k2 ≤ span := by omega
      have hdistrib : (a - b) * g = g * (a - b) := by ring
      have hle : a - b ≤ span / g := by
        rw [Int.le_ediv_iff_mul_le hg]
        omega
      omega
  have himg := Finset.card_image_of_injOn hinj
  have hbd := card_le_of_bounded_diff
    ((m.map Prod.fst).toFinset.image idxf) ((span / g).toNat) hdiff
  have hcard1 : m.length = (m.map Prod.fst).toFinset.card := by
    rw [List.toFinset_card_of_nodup hnd, List.length_map]
  omega

/-- Any ten consecutive calendar years span at least 3651 days: every run of
ten years contains a leap year. -/
theorem daysToYear_ten_gap (y : Int) :
    3651 ≤ daysToYear (y + 10) - daysToYear y := by
  unfold daysToYear
  omega

/-- Year starts ten years apart are at least 3651 days apart. -/
theorem yearStart_ten_gap (i : Int) :
    3651 ≤ daysFromCivil (i + 10) 1 1 - daysFromCivil i 1 1 := by
  have := daysToYear_ten_gap i
  rw [daysFromCivil_jan1, daysFromCivil_jan1]
  omega

/-- Entries whose keys come from a `g`-gapped increasing family whose `K`-step
jumps exceed the window width number at most `K`. -/
theorem length_le_of_jump_window (m : List (Int × Nat)) (f : Int → Int)
    (g lo span : Int) (K : Nat) (hg : 0 < g) (hK : 0 < K)
    (hnd : (m.map Prod.fst).Nodup)
    (hgap : ∀ i, g ≤ f (i + 1) - f i)
    (hjump : ∀ i, span < f (i + (K : Int)) - f i)
    (hmem : ∀ kv ∈ m, ∃ i, kv.1 = f i)
    (hwin : ∀ kv ∈ m, lo ≤ kv.1 ∧ kv.1 ≤ lo + span) :
    m.length ≤ K := by
  classical
  have hkey : ∀ k ∈ (m.map Prod.fst).toFinset,
      (∃ i, k = f i) ∧ lo ≤ k ∧ k ≤ lo + span := by
    intro k hk
    rw [List.mem_toFinset, List.mem_map] at hk
    obtain ⟨kv, hkv, hke⟩ := hk
    exact hke ▸ ⟨hmem kv hkv, hwin kv hkv⟩
  have hmono : ∀ i j, i ≤ j → g * (j - i) ≤ f j - f i :=
    fun i j h => gap_telescope f g hgap i j h
  set idxf : Int → Int := fun k => if h : ∃ i, k = f i then Classical.choose h else 0
    with hidxf
  have hidx : ∀ k, (∃ i, k = f i) → k = f (idxf k) := by
    intro k hk
    rw [hidxf]
    dsimp
    rw [dif_pos hk]
    exact Classical.choose_spec hk
  have hinj : Set.InjOn idxf ((m.map Prod.fst).toFinset : Set Int) := by
    intro k1 hk1 k2 hk2 he
    have h1 := hidx k1 (hkey k1 hk1).1
    have h2 := hidx k2 (hkey k2 hk2).1
    rw [h1, h2, he]
  have hdiff : ∀ a ∈ (m.map Prod.fst).toFinset.image idxf,
      ∀ b ∈ (m.map Prod.fst).toFinset.image idxf,
      a - b ≤ ((K - 1 : Nat) : Int) := by
    intro a ha b hb
    rw [Finset.mem_image] at ha hb
    obtain ⟨k1, hk1, he1⟩ := ha
    obtain ⟨k2, hk2, he2⟩ := hb
    have h1 := hkey k1 hk1
    have h2 := hkey k2 hk2
    rcases le_or_lt a b with hab | hab
    · omega
    · have hfa : k1 = f a := he1 ▸ hidx k1 h1.1
      have hfb : k2 = f b := he2 ▸ hidx k2 h2.1
      by_contra hgt
      have hKle : b + (K : Int) ≤ a := by omega
      have hj := hjump b
      have htel := hmono (b + (K : Int)) a hKle
      have hnn : (0 : Int) ≤ g * (a - (b + (K : Int))) :=
        mul_nonneg (le_of_lt hg) (by omega)
      have hsub : k1 - k2 ≤ span := by omega
      omega
  have himg := Finset.card_image_of_injOn hinj
  have hbd := card_le_of_bounded_diff
    ((m.map Prod.fst).toFinset.image idxf) (K - 1) hdiff
  have hcard1 : m.length = (m.map Prod.fst).toFinset.card := by
    rw [List.toFinset_card_of_nodup hnd, List.length_map]
  omega

/-- The seconds key is second-aligned and within one second before the
instant. -/
theorem keySeconds_spec (t : Int) :
    keySeconds t % nsPerSec = 0 ∧ t - nsPerSec < keySeconds t ∧ keySeconds t ≤ t := by
  unfold keySeconds dayOf hourOf minuteOf secondOf secOfDay secsOf nsPerSec
  omega

/-- The minutes key is minute-aligned and within one minute before the
instant. -/
theorem keyMinutes_spec (t : Int) :
    keyMinutes t % (60 * nsPerSec) = 0 ∧ t - 60 * nsPerSec < keyMinutes t ∧
    keyMinutes t ≤ t := by
  unfold keyMinutes dayOf hourOf minuteOf secOfDay secsOf nsPerSec
  omega

/-- The hours key is hour-aligned and within one hour before the instant. -/
theorem keyHours_spec (t : Int) :
    keyHours t % (3600 * nsPerSec) = 0 ∧ t - 3600 * nsPerSec < keyHours t ∧
    keyHours t ≤ t := by
  unfold keyHours dayOf hourOf secOfDay secsOf nsPerSec
  omega

/-- The days key is day-aligned and within one day before the instant. -/
theorem keyDays_spec (t : Int) :
    keyDays t % nsPerDay = 0 ∧ t - nsPerDay < keyDays t ∧ keyDays t ≤ t := by
  unfold keyDays dayOf secsOf nsPerDay nsPerSec
  omega

/-- A produced weeks key is Monday-aligned and lies within 370 days before
and 368 days after the instant. -/
theorem keyWeeks_spec (t k : Int) (h : keyWeeks t = some k) :
    k % (7 * nsPerDay) = 4 * nsPerDay ∧ t - 370 * nsPerDay ≤ k ∧
    k ≤ t + 368 * nsPerDay := by
  unfold keyWeeks at h
  rcases hw : weekKeyDay (dayOf t) with _ | d
  · rw [hw] at h
    simp at h
  · rw [hw] at h
    simp only [Option.map_some'] at h
    rw [Option.some.injEq] at h
    subst h
    have hb := weekKeyDay_bounds (dayOf t) d hw
    have hdt : dayOf t * 86400 * nsPerSec ≤ t ∧ t < (dayOf t + 1) * 86400 * nsPerSec := by
      unfold dayOf secsOf nsPerSec
      omega
    unfold nsPerDay nsPerSec at *
    omega

/-- The months key is a month start at most 31 days before the instant. -/
theorem keyMonths_spec (t : Int) :
    (∃ i, keyMonths t = monthStartD i * nsPerDay) ∧
    t - 31 * nsPerDay < keyMonths t ∧ keyMonths t ≤ t := by
  have hm := monthOf_correct (dayOf t)
  have hdt : dayOf t * 86400 * nsPerSec ≤ t ∧ t < (dayOf t + 1) * 86400 * nsPerSec := by
    unfold dayOf secsOf nsPerSec
    omega
  refine ⟨⟨12 * yearOf (dayOf t) + (monthOf (dayOf t) - 1), ?_⟩, ?_, ?_⟩
  · unfold keyMonths
    rw [monthStartD_of _ _ hm.1 hm.2.1]
  · unfold keyMonths nsPerDay nsPerSec at *
    omega
  · unfold keyMonths nsPerDay nsPerSec at *
    omega

/-- The years key is a year start at most 366 days before the instant. -/
theorem keyYears_spec (t : Int) :
    (∃ i, keyYears t = daysFromCivil i 1 1 * nsPerDay) ∧
    t - 366 * nsPerDay < keyYears t ∧ keyYears t ≤ t := by
  have hy := yearKey_bounds (dayOf t)
  have hdt : dayOf t * 86400 * nsPerSec ≤ t ∧ t < (dayOf t + 1) * 86400 * nsPerSec := by
    unfold dayOf secsOf nsPerSec
    omega
  refine ⟨⟨yearOf (dayOf t), rfl⟩, ?_, ?_⟩
  · unfold keyYears nsPerDay nsPerSec at *
    omega
  · unfold keyYears nsPerDay nsPerSec at *
    omega

/-- Every entry surviving `trim_older` was present before and is inside the
retention window. -/
theorem mem_trim_older (m : List (Int × Nat)) (now keep : Int) (kv : Int × Nat)
    (h : kv ∈ trim_older m now keep) : kv ∈ m ∧ now - keep * nsPerSec ≤ kv.1 := by
  unfold trim_older at h
  rw [List.mem_filter] at h
  exact ⟨h.1, by simpa using h.2⟩

/-- `trim_older` keeps the key list duplicate-free. -/
theorem nodup_trim_older (m : List (Int × Nat)) (now keep : Int)
    (h : (m.map Prod.fst).Nodup) :
    ((trim_older m now keep).map Prod.fst).Nodup := by
  unfold trim_older
  exact h.sublist ((List.filter_sublist m).map Prod.fst)

/-- Lookup succeeds exactly on the stored keys. -/
theorem lookup_isSome_iff {κ : Type} [BEq κ] [LawfulBEq κ]
    (m : List (κ × Nat)) (k : κ) :
    (m.lookup k).isSome ↔ k ∈ m.map Prod.fst := by
  induction m with
  | nil => simp [List.lookup]
  | cons kv rest ih =>
    by_cases hk : k = kv.1
    · have hb : (k == kv.1) = true := beq_iff_eq.mpr hk
      simp [List.lookup, hb, hk]
    · have hb : (k == kv.1) = false := beq_eq_false_iff_ne.mpr hk
      simp [List.lookup, hb, hk, ih]

/-- Every entry of `bump m k` has key `k` or a key already stored in `m`. -/
theorem mem_bump (m : List (Int × Nat)) (k : Int) (kv : Int × Nat)
    (h : kv ∈ bump m k) : kv.1 = k ∨ ∃ v, (kv.1, v) ∈ m := by
  unfold bump at h
  split at h
  · rw [List.mem_map] at h
    obtain ⟨kv0, hkv0, he⟩ := h
    have h1 : kv.1 = kv0.1 := by
      split at he <;> rw [← he]
    right
    refine ⟨kv0.2, ?_⟩
    rw [h1]
    exact hkv0
  · rw [List.mem_append] at h
    rcases h with h | h
    · right
      exact ⟨kv.2, h⟩
    · left
      simp at h
      rw [h]

/-- `bump` keeps the key list duplicate-free. -/
theorem nodup_bump (m : List (Int × Nat)) (k : Int)
    (h : (m.map Prod.fst).Nodup) : ((bump m k).map Prod.fst).Nodup := by
  unfold bump
  split
  case isTrue hp =>
    have hc : (Prod.fst ∘ fun kv : Int × Nat =>
        if kv.1 == k then (kv.1, kv.2 + 1) else kv) = Prod.fst := by
      funext kv
      dsimp
      split <;> rfl
    rw [List.map_map, hc]
    exact h
  case isFalse hp =>
    rw [List.map_append]
    rw [List.nodup_append]
    refine ⟨h, by simp, ?_⟩
    intro a ha hb
    simp at hb
    rw [hb] at ha
    exact hp ((lookup_isSome_iff m k).mpr ha)

/-- After trimming at `T` and bumping the fresh key, every entry either is
the fresh key or was present before and survived the trim. -/
theorem mem_bump_trim (m : List (Int × Nat)) (T keep knew : Int) (kv : Int × Nat)
    (h : kv ∈ bump (trim_older m T keep) knew) :
    kv.1 = knew ∨ ((∃ v, (kv.1, v) ∈ m) ∧ T - keep * nsPerSec ≤ kv.1) := by
  rcases mem_bump _ _ _ h with h1 | ⟨v, hv⟩
  · exact Or.inl h1
  · right
    have := mem_trim_older m T keep (kv.1, v) hv
    exact ⟨⟨v, this.1⟩, this.2⟩

/-- One bucket step preserves a bucket invariant: the fresh key satisfies
the new predicate and surviving old keys are upgraded by `hsurv`. -/
theorem BucketInv_step (m : List (Int × Nat)) (T keep knew : Int)
    (Pold Pnew : Int → Prop) (hold : BucketInv m Pold)
    (hknew : Pnew knew)
    (hsurv : ∀ k, Pold k → T - keep * nsPerSec ≤ k → Pnew k) :
    BucketInv (bump (trim_older m T keep) knew) Pnew := by
  refine ⟨nodup_bump _ _ (nodup_trim_older _ _ _ hold.1), ?_⟩
  intro kv hkv
  rcases mem_bump_trim m T keep knew kv hkv with h1 | ⟨⟨v, hv⟩, hge⟩
  · rw [h1]
    exact hknew
  · exact hsurv kv.1 (hold.2 (kv.1, v) hv) hge

/-- One completed count action at instant `T` re-establishes the counts
invariant at `T`. -/
theorem countsStep_inv (c c2 : EventCounts) (T0 T : Int) (hT : T0 ≤ T)
    (hinv : CountsInv c T0) (hstep : countsStep c T = some c2) :
    CountsInv c2 T := by
  have hns : (nsPerSec : Int) = 1000000000 := rfl
  have hnd : (nsPerDay : Int) = 86400000000000 := rfl
  unfold countsStep EventCounts.increment at hstep
  rcases hw : keyWeeks T with _ | wk
  · rw [hw] at hstep
    cases hstep
  · rw [hw] at hstep
    rw [Option.some.injEq] at hstep
    subst hstep
    obtain ⟨hs, hmi, hh, hd, hwk, hmo, hy⟩ := hinv
    have hksec := keySeconds_spec T
    have hkmin := keyMinutes_spec T
    have hkhr := keyHours_spec T
    have hkday := keyDays_spec T
    have hkwk := keyWeeks_spec T wk hw
    have hkmo := keyMonths_spec T
    have hkyr := keyYears_spec T
    simp only [EventCounts.trim_all]
    refine ⟨?_, ?_, ?_, ?_, ?_, ?_, ?_⟩
    · exact BucketInv_step _ T KEEP_SECONDS _ _ _ hs
        ⟨hksec.1, by omega, by omega⟩
        (fun k hP hge => ⟨hP.1, by unfold KEEP_SECONDS at hge; omega, by omega⟩)
    · exact BucketInv_step _ T (KEEP_MINUTES * 60) _ _ _ hmi
        ⟨hkmin.1, by omega, by omega⟩
        (fun k hP hge => ⟨hP.1, by unfold KEEP_MINUTES at hge; omega, by omega⟩)
    · exact BucketInv_step _ T (KEEP_HOURS * 60 * 60) _ _ _ hh
        ⟨hkhr.1, by omega, by omega⟩
        (fun k hP hge => ⟨hP.1, by unfold KEEP_HOURS at hge; omega, by omega⟩)
    · exact BucketInv_step _ T (KEEP_DAYS * 60 * 60 * 24) _ _ _ hd
        ⟨hkday.1, by omega, by omega⟩
        (fun k hP hge => ⟨hP.1, by unfold KEEP_DAYS at hge; omega, by omega⟩)
    · exact BucketInv_step _ T (KEEP_WEEKS * 60 * 60 * 24 * 7) _ _ _ hwk
        ⟨hkwk.1, by omega, by omega⟩
        (fun k hP hge => ⟨hP.1, by unfold KEEP_WEEKS at hge; omega, by omega⟩)
    · exact BucketInv_step _ T (KEEP_MONTHS * 60 * 60 * 24 * 31) _ _ _ hmo
        ⟨hkmo.1, by omega, by omega⟩
        (fun k hP hge => ⟨hP.1, by unfold KEEP_MONTHS at hge; omega, by omega⟩)
    · exact BucketInv_step _ T (KEEP_YEARS * 60 * 60 * 24 * 365) _ _ _ hy
        ⟨hkyr.1, by omega, by omega⟩
        (fun k hP hge => ⟨hP.1, by unfold KEEP_YEARS at hge; omega, by omega⟩)

/-- Unfolding equation of `runCounts` on a nonempty trace. -/
theorem runCounts_cons (c : EventCounts) (t : Int) (ts : List Int) :
    runCounts c (t :: ts) = match countsStep c t with
      | none => none
      | some c2 => runCounts c2 ts := rfl

/-- Running count actions at non-decreasing instants from an invariant state
re-establishes the invariant at the last instant. -/
theorem runCounts_inv : ∀ (ts : List Int) (c : EventCounts) (T0 : Int)
    (c2 : EventCounts), CountsInv c T0 → List.Chain' (· ≤ ·) (T0 :: ts) →
    runCounts c ts = some c2 → CountsInv c2 (List.getLastD ts T0) := by
  intro ts
  induction ts with
  | nil =>
    intro c T0 c2 hinv _ hrun
    cases hrun
    exact hinv
  | cons t ts ih =>
    intro c T0 c2 hinv hchain hrun
    rw [runCounts_cons] at hrun
    rcases hstep : countsStep c t with _ | c1
    · rw [hstep] at hrun
      cases hrun
    · rw [hstep] at hrun
      have hT : T0 ≤ t := (List.chain'_cons.mp hchain).1
      have hinv1 := countsStep_inv c c1 T0 t hT hinv hstep
      have hres := ih c1 t c2 hinv1 (List.chain'_cons.mp hchain).2 hrun
      rw [List.getLastD_cons]
      exact hres

/-- Boolean sortedness implies the chain relation. -/
theorem timesSorted_chain' :
    ∀ l : List Int, timesSorted l = true → List.Chain' (· ≤ ·) l := by
  intro l
  induction l with
  | nil =>
    intro _
    exact List.chain'_nil
  | cons a rest ih =>
    intro h
    rcases rest with _ | ⟨b, rest2⟩
    · simp
    · unfold timesSorted at h
      rw [Bool.and_eq_true] at h
      exact List.chain'_cons.mpr ⟨of_decide_eq_true h.1, ih h.2⟩

/-- The counts invariant bounds every bucket's size. -/
theorem countsInv_bounds (c : EventCounts) (T : Int) (h : CountsInv c T) :
    c.seconds.length ≤ 3601 ∧ c.minutes.length ≤ 1441 ∧ c.hours.length ≤ 169 ∧
    c.days.length ≤ 29 ∧ c.weeks.length ≤ 106 ∧ c.months.length ≤ 54 ∧
    c.years.length ≤ 10 := by
  obtain ⟨hs, hmi, hh, hd, hwk, hmo, hy⟩ := h
  refine ⟨?_, ?_, ?_, ?_, ?_, ?_, ?_⟩
  · have hb := length_le_of_aligned_window c.seconds nsPerSec 0
      (T - 3600 * nsPerSec) (3600 * nsPerSec) (by decide) (by decide) hs.1
      (fun kv hkv => (hs.2 kv hkv).1)
      (fun kv hkv => ⟨(hs.2 kv hkv).2.1, by have := (hs.2 kv hkv).2.2; omega⟩)
    have he : ((3600 * nsPerSec / nsPerSec).toNat) = 3600 := by decide
    omega
  · have hb := length_le_of_aligned_window c.minutes (60 * nsPerSec) 0
      (T - 86400 * nsPerSec) (86400 * nsPerSec) (by decide) (by decide) hmi.1
      (fun kv hkv => (hmi.2 kv hkv).1)
      (fun kv hkv => ⟨(hmi.2 kv hkv).2.1, by have := (hmi.2 kv hkv).2.2; omega⟩)
    have he : ((86400 * nsPerSec / (60 * nsPerSec)).toNat) = 1440 := by decide
    omega
  · have hb := length_le_of_aligned_window c.hours (3600 * nsPerSec) 0
      (T - 604800 * nsPerSec) (604800 * nsPerSec) (by decide) (by decide) hh.1
      (fun kv hkv => (hh.2 kv hkv).1)
      (fun kv hkv => ⟨(hh.2 kv hkv).2.1, by have := (hh.2 kv hkv).2.2; omega⟩)
    have he : ((604800 * nsPerSec / (3600 * nsPerSec)).toNat) = 168 := by decide
    omega
  · have hb := length_le_of_aligned_window c.days nsPerDay 0
      (T - 2419200 * nsPerSec) (2419200 * nsPerSec) (by decide) (by decide) hd.1
      (fun kv hkv => (hd.2 kv hkv).1)
      (fun kv hkv => ⟨(hd.2 kv hkv).2.1, by have := (hd.2 kv hkv).2.2; omega⟩)
    have he : ((2419200 * nsPerSec / nsPerDay).toNat) = 28 := by decide
    omega
  · have hb := length_le_of_aligned_window c.weeks (7 * nsPerDay) (4 * nsPerDay)
      (T - 370 * nsPerDay) (738 * nsPerDay) (by decide) (by decide) hwk.1
      (fun kv hkv => (hwk.2 kv hkv).1)
      (fun kv hkv => ⟨(hwk.2 kv hkv).2.1, by
        have := (hwk.2 kv hkv).2.2
        unfold nsPerDay nsPerSec at *
        omega⟩)
    have he : ((738 * nsPerDay / (7 * nsPerDay)).toNat) = 105 := by decide
    omega
  · have hgap : ∀ i : Int, 28 * nsPerDay ≤
        monthStartD (i + 1) * nsPerDay - monthStartD i * nsPerDay := by
      intro i
      have := monthStartD_gap i
      unfold nsPerDay nsPerSec
      omega
    have hb := length_le_of_gapped_window c.months
      (fun i => monthStartD i * nsPerDay) (28 * nsPerDay)
      (T - 1488 * nsPerDay) (1488 * nsPerDay) (by decide) (by decide) hmo.1
      hgap (fun kv hkv => (hmo.2 kv hkv).1)
      (fun kv hkv => ⟨(hmo.2 kv hkv).2.1, by have := (hmo.2 kv hkv).2.2; omega⟩)
    have he : ((1488 * nsPerDay / (28 * nsPerDay)).toNat) = 53 := by decide
    omega
  · have hgap : ∀ i : Int, 365 * nsPerDay ≤
        daysFromCivil (i + 1) 1 1 * nsPerDay - daysFromCivil i 1 1 * nsPerDay := by
      intro i
      have := yearStart_gap i
      unfold nsPerDay nsPerSec
      omega
    have hjump : ∀ i : Int, 3650 * nsPerDay <
        daysFromCivil (i + ((10 : Nat) : Int)) 1 1 * nsPerDay -
          daysFromCivil i 1 1 * nsPerDay := by
      intro i
      have h10 := yearStart_ten_gap i
      have hc : ((10 : Nat) : Int) = 10 := by decide
      rw [hc]
      unfold nsPerDay nsPerSec at *
      omega
    have hb := length_le_of_jump_window c.years
      (fun i => daysFromCivil i 1 1 * nsPerDay) (365 * nsPerDay)
      (T - 3650 * nsPerDay) (3650 * nsPerDay) 10 (by decide) (by decide) hy.1
      hgap hjump (fun kv hkv => (hy.2 kv hkv).1)
      (fun kv hkv => ⟨(hy.2 kv hkv).2.1, by have := (hy.2 kv hkv).2.2; omega⟩)
    exact hb

/-- C7 (amended): after any completed sequence of `ReceiveEvent` count
actions at non-decreasing instants, the years map is bounded by the stated
10 (any ten consecutive years span at least 3651 days, exceeding the
3650-day retention window), but the other granularities are bounded only by
seconds 3601, minutes 1441, hours 169, days 29, weeks 106 and months 54,
not by the stated 3600/1440/168/28/52/48: the fixed-width trim windows keep
one extra boundary key at aligned instants, the months horizon of 48·31
days spans 49 month starts, and the weeks-key calendar-year bug can place
keys far outside the window. -/
theorem C7_retention_bounds (ts : List Int) (T : Int) (c : EventCounts)
    (hchain : timesSorted (ts ++ [T]) = true)
    (hrun : runCounts EventCounts.empty (ts ++ [T]) = some c) :
    c.seconds.length ≤ 3601 ∧ c.minutes.length ≤ 1441 ∧ c.hours.length ≤ 169 ∧
    c.days.length ≤ 29 ∧ c.weeks.length ≤ 106 ∧ c.months.length ≤ 54 ∧
    c.years.length ≤ 10 := by
  have hchain2 := timesSorted_chain' (ts ++ [T]) hchain
  rcases hts : ts ++ [T] with _ | ⟨t0, rest⟩
  · exact absurd hts (by simp)
  · rw [hts] at hchain2 hrun
    have hbase : CountsInv EventCounts.empty t0 := by
      refine ⟨⟨by simp [EventCounts.empty], ?_⟩, ⟨by simp [EventCounts.empty], ?_⟩,
        ⟨by simp [EventCounts.empty], ?_⟩, ⟨by simp [EventCounts.empty], ?_⟩,
        ⟨by simp [EventCounts.empty], ?_⟩, ⟨by simp [EventCounts.empty], ?_⟩,
        ⟨by simp [EventCounts.empty], ?_⟩⟩ <;>
      · intro kv hkv
        simp [EventCounts.empty] at hkv
    have hchain3 : List.Chain' (· ≤ ·) (t0 :: t0 :: rest) :=
      List.chain'_cons.mpr ⟨le_refl t0, hchain2⟩
    have hinv := runCounts_inv (t0 :: rest) EventCounts.empty t0 c hbase hchain3 hrun
    exact countsInv_bounds c _ hinv

/-- C7 witness: a single count action at the epoch instant. -/
theorem C7_retention_bounds_witness :
    timesSorted ([] ++ [(0 : Int)]) = true ∧
    runCounts EventCounts.empty ([] ++ [(0 : Int)]) = some
      ⟨[(0, 1)], [(0, 1)], [(0, 1)], [(0, 1)], [(-259200000000000, 1)],
       [(0, 1)], [(0, 1)]⟩ ∧
    ([(((0 : Int), (1 : Nat)))].length ≤ 3601) :=
  ⟨by decide, by decide,
    (C7_retention_bounds [] 0
      ⟨[(0, 1)], [(0, 1)], [(0, 1)], [(0, 1)], [(-259200000000000, 1)],
       [(0, 1)], [(0, 1)]⟩ (by decide) (by decide)).1⟩

set_option maxRecDepth 400000 in
/-- C7 counterexample: 49 monthly count actions (the 15th of each month from
March 2020 to March 2024 at 12:00 UTC) leave 49 entries in the months map
(stated bound 48); 53 count actions at consecutive Monday midnights
(2020-01-06 to 2021-01-04) leave 53 entries in the weeks map (stated bound
52); 29 count actions at consecutive midnights leave 29 entries in the days
map (stated bound 28); 169 count actions at consecutive exact hours leave
169 entries in the hours map (stated bound 168). -/
theorem C7_counterexample :
    (timesSorted [1584273600000000000, 1586952000000000000, 1589544000000000000, 1592222400000000000, 1594814400000000000, 1597492800000000000, 1600171200000000000, 1602763200000000000, 1605441600000000000, 1608033600000000000, 1610712000000000000, 1613390400000000000, 1615809600000000000, 1618488000000000000, 1621080000000000000, 1623758400000000000, 1626350400000000000, 1629028800000000000, 1631707200000000000, 1634299200000000000, 1636977600000000000, 1639569600000000000, 1642248000000000000, 1644926400000000000, 1647345600000000000, 1650024000000000000, 1652616000000000000, 1655294400000000000, 1657886400000000000, 1660564800000000000, 1663243200000000000, 1665835200000000000, 1668513600000000000, 1671105600000000000, 1673784000000000000, 1676462400000000000, 1678881600000000000, 1681560000000000000, 1684152000000000000, 1686830400000000000, 1689422400000000000, 1692100800000000000, 1694779200000000000, 1697371200000000000, 1700049600000000000, 1702641600000000000, 1705320000000000000, 1707998400000000000, 1710504000000000000] = true ∧
     (runCounts EventCounts.empty [1584273600000000000, 1586952000000000000, 1589544000000000000, 1592222400000000000, 1594814400000000000, 1597492800000000000, 1600171200000000000, 1602763200000000000, 1605441600000000000, 1608033600000000000, 1610712000000000000, 1613390400000000000, 1615809600000000000, 1618488000000000000, 1621080000000000000, 1623758400000000000, 1626350400000000000, 1629028800000000000, 1631707200000000000, 1634299200000000000, 1636977600000000000, 1639569600000000000, 1642248000000000000, 1644926400000000000, 1647345600000000000, 1650024000000000000, 1652616000000000000, 1655294400000000000, 1657886400000000000, 1660564800000000000, 1663243200000000000, 1665835200000000000, 1668513600000000000, 1671105600000000000, 1673784000000000000, 1676462400000000000, 1678881600000000000, 1681560000000000000, 1684152000000000000, 1686830400000000000, 1689422400000000000, 1692100800000000000, 1694779200000000000, 1697371200000000000, 1700049600000000000, 1702641600000000000, 1705320000000000000, 1707998400000000000, 1710504000000000000]).map (fun c => c.months.length) = some 49 ∧ ¬ (49 ≤ 48)) ∧
    (timesSorted [1578268800000000000, 1578873600000000000, 1579478400000000000, 1580083200000000000, 1580688000000000000, 1581292800000000000, 1581897600000000000, 1582502400000000000, 1583107200000000000, 1583712000000000000, 1584316800000000000, 1584921600000000000, 1585526400000000000, 1586131200000000000, 1586736000000000000, 1587340800000000000, 1587945600000000000, 1588550400000000000, 1589155200000000000, 1589760000000000000, 1590364800000000000, 1590969600000000000, 1591574400000000000, 1592179200000000000, 1592784000000000000, 1593388800000000000, 1593993600000000000, 1594598400000000000, 1595203200000000000, 1595808000000000000, 1596412800000000000, 1597017600000000000, 1597622400000000000, 1598227200000000000, 1598832000000000000, 1599436800000000000, 1600041600000000000, 1600646400000000000, 1601251200000000000, 1601856000000000000, 1602460800000000000, 1603065600000000000, 1603670400000000000, 1604275200000000000, 1604880000000000000, 1605484800000000000, 1606089600000000000, 1606694400000000000, 1607299200000000000, 1607904000000000000, 1608508800000000000, 1609113600000000000, 1609718400000000000] = true ∧
     (runCounts EventCounts.empty [1578268800000000000, 1578873600000000000, 1579478400000000000, 1580083200000000000, 1580688000000000000, 1581292800000000000, 1581897600000000000, 1582502400000000000, 1583107200000000000, 1583712000000000000, 1584316800000000000, 1584921600000000000, 1585526400000000000, 1586131200000000000, 1586736000000000000, 1587340800000000000, 1587945600000000000, 1588550400000000000, 1589155200000000000, 1589760000000000000, 1590364800000000000, 1590969600000000000, 1591574400000000000, 1592179200000000000, 1592784000000000000, 1593388800000000000, 1593993600000000000, 1594598400000000000, 1595203200000000000, 1595808000000000000, 1596412800000000000, 1597017600000000000, 1597622400000000000, 1598227200000000000, 1598832000000000000, 1599436800000000000, 1600041600000000000, 1600646400000000000, 1601251200000000000, 1601856000000000000, 1602460800000000000, 1603065600000000000, 1603670400000000000, 1604275200000000000, 1604880000000000000, 1605484800000000000, 1606089600000000000, 1606694400000000000, 1607299200000000000, 1607904000000000000, 1608508800000000000, 1609113600000000000, 1609718400000000000]).map (fun c => c.weeks.length) = some 53 ∧ ¬ (53 ≤ 52)) ∧
    (timesSorted [0, 86400000000000, 172800000000000, 259200000000000, 345600000000000, 432000000000000, 518400000000000, 604800000000000, 691200000000000, 777600000000000, 864000000000000, 950400000000000, 1036800000000000, 1123200000000000, 1209600000000000, 1296000000000000, 1382400000000000, 1468800000000000, 1555200000000000, 1641600000000000, 1728000000000000, 1814400000000000, 1900800000000000, 1987200000000000, 2073600000000000, 2160000000000000, 2246400000000000, 2332800000000000, 2419200000000000] = true ∧
     (runCounts EventCounts.empty [0, 86400000000000, 172800000000000, 259200000000000, 345600000000000, 432000000000000, 518400000000000, 604800000000000, 691200000000000, 777600000000000, 864000000000000, 950400000000000, 1036800000000000, 1123200000000000, 1209600000000000, 1296000000000000, 1382400000000000, 1468800000000000, 1555200000000000, 1641600000000000, 1728000000000000, 1814400000000000, 1900800000000000, 1987200000000000, 2073600000000000, 2160000000000000, 2246400000000000, 2332800000000000, 2419200000000000]).map (fun c => c.days.length) = some 29 ∧ ¬ (29 ≤ 28)) ∧
    (timesSorted [0, 3600000000000, 7200000000000, 10800000000000, 14400000000000, 18000000000000, 21600000000000, 25200000000000, 28800000000000, 32400000000000, 36000000000000, 39600000000000, 43200000000000, 46800000000000, 50400000000000, 54000000000000, 57600000000000, 61200000000000, 64800000000000, 68400000000000, 72000000000000, 75600000000000, 79200000000000, 82800000000000, 86400000000000, 90000000000000, 93600000000000, 97200000000000, 100800000000000, 104400000000000, 108000000000000, 111600000000000, 115200000000000, 118800000000000, 122400000000000, 126000000000000, 129600000000000, 133200000000000, 136800000000000, 140400000000000, 144000000000000, 147600000000000, 151200000000000, 154800000000000, 158400000000000, 162000000000000, 165600000000000, 169200000000000, 172800000000000, 176400000000000, 180000000000000, 183600000000000, 187200000000000, 190800000000000, 194400000000000, 198000000000000, 201600000000000, 205200000000000, 208800000000000, 212400000000000, 216000000000000, 219600000000000, 223200000000000, 226800000000000, 230400000000000, 234000000000000, 237600000000000, 241200000000000, 244800000000000, 248400000000000, 252000000000000, 255600000000000, 259200000000000, 262800000000000, 266400000000000, 270000000000000, 273600000000000, 277200000000000, 280800000000000, 284400000000000, 288000000000000, 291600000000000, 295200000000000, 298800000000000, 302400000000000, 306000000000000, 309600000000000, 313200000000000, 316800000000000, 320400000000000, 324000000000000, 327600000000000, 331200000000000, 334800000000000, 338400000000000, 342000000000000, 345600000000000, 349200000000000, 352800000000000, 356400000000000, 360000000000000, 363600000000000, 367200000000000, 370800000000000, 374400000000000, 378000000000000, 381600000000000, 385200000000000, 388800000000000, 392400000000000, 396000000000000, 399600000000000, 403200000000000, 406800000000000, 410400000000000, 414000000000000, 417600000000000, 421200000000000, 424800000000000, 428400000000000, 432000000000000, 435600000000000, 439200000000000, 442800000000000, 446400000000000, 450000000000000, 453600000000000, 457200000000000, 460800000000000, 464400000000000, 468000000000000, 471600000000000, 475200000000000, 478800000000000, 482400000000000, 486000000000000, 489600000000000, 493200000000000, 496800000000000, 500400000000000, 504000000000000, 507600000000000, 511200000000000, 514800000000000, 518400000000000, 522000000000000, 525600000000000, 529200000000000, 532800000000000, 536400000000000, 540000000000000, 543600000000000, 547200000000000, 550800000000000, 554400000000000, 558000000000000, 561600000000000, 565200000000000, 568800000000000, 572400000000000, 576000000000000, 579600000000000, 583200000000000, 586800000000000, 590400000000000, 594000000000000, 597600000000000, 601200000000000, 604800000000000] = true ∧
     (runCounts EventCounts.empty [0, 3600000000000, 7200000000000, 10800000000000, 14400000000000, 18000000000000, 21600000000000, 25200000000000, 28800000000000, 32400000000000, 36000000000000, 39600000000000, 43200000000000, 46800000000000, 50400000000000, 54000000000000, 57600000000000, 61200000000000, 64800000000000, 68400000000000, 72000000000000, 75600000000000, 79200000000000, 82800000000000, 86400000000000, 90000000000000, 93600000000000, 97200000000000, 100800000000000, 104400000000000, 108000000000000, 111600000000000, 115200000000000, 118800000000000, 122400000000000, 126000000000000, 129600000000000, 133200000000000, 136800000000000, 140400000000000, 144000000000000, 147600000000000, 151200000000000, 154800000000000, 158400000000000, 162000000000000, 165600000000000, 169200000000000, 172800000000000, 176400000000000, 180000000000000, 183600000000000, 187200000000000, 190800000000000, 194400000000000, 198000000000000, 201600000000000, 205200000000000, 208800000000000, 212400000000000, 216000000000000, 219600000000000, 223200000000000, 226800000000000, 230400000000000, 234000000000000, 237600000000000, 241200000000000, 244800000000000, 248400000000000, 252000000000000, 255600000000000, 259200000000000, 262800000000000, 266400000000000, 270000000000000, 273600000000000, 277200000000000, 280800000000000, 284400000000000, 288000000000000, 291600000000000, 295200000000000, 298800000000000, 302400000000000, 306000000000000, 309600000000000, 313200000000000, 316800000000000, 320400000000000, 324000000000000, 327600000000000, 331200000000000, 334800000000000, 338400000000000, 342000000000000, 345600000000000, 349200000000000, 352800000000000, 356400000000000, 360000000000000, 363600000000000, 367200000000000, 370800000000000, 374400000000000, 378000000000000, 381600000000000, 385200000000000, 388800000000000, 392400000000000, 396000000000000, 399600000000000, 403200000000000, 406800000000000, 410400000000000, 414000000000000, 417600000000000, 421200000000000, 424800000000000, 428400000000000, 432000000000000, 435600000000000, 439200000000000, 442800000000000, 446400000000000, 450000000000000, 453600000000000, 457200000000000, 460800000000000, 464400000000000, 468000000000000, 471600000000000, 475200000000000, 478800000000000, 482400000000000, 486000000000000, 489600000000000, 493200000000000, 496800000000000, 500400000000000, 504000000000000, 507600000000000, 511200000000000, 514800000000000, 518400000000000, 522000000000000, 525600000000000, 529200000000000, 532800000000000, 536400000000000, 540000000000000, 543600000000000, 547200000000000, 550800000000000, 554400000000000, 558000000000000, 561600000000000, 565200000000000, 568800000000000, 572400000000000, 576000000000000, 579600000000000, 583200000000000, 586800000000000, 590400000000000, 594000000000000, 597600000000000, 601200000000000, 604800000000000]).map (fun c => c.hours.length) = some 169 ∧ ¬ (169 ≤ 168)) := by
  exact ⟨⟨by decide, by decide, by decide⟩, ⟨by decide, by decide, by decide⟩,
    ⟨by decide, by decide, by decide⟩, ⟨by decide, by decide, by decide⟩⟩

end Centinela
